import Mathlib

/-
  Verification of the League-of-Molts commentary engine core.

  Shallow embedding of `src/commentary-engine/src/event_detector.py`,
  the broadcast fan-out of `src/commentary-engine/src/main.py`, and the
  template fast path of `src/commentary-engine/src/commentary_generator.py`.

  Modelling conventions:
  * Timestamps, health values and coordinates are rationals (the Python
    floats are only compared and added/subtracted in the detector, never
    rounded, so ℚ is order- and arithmetic-faithful for the properties
    proved here).
  * Python dict field access with `.get(key, default)` becomes an
    `Option` field read with `getD`; bare indexing `d[key]` (which can
    raise `KeyError`) becomes a partial read in the `Except Unit` monad.
    Champion `position` objects are therefore records of two `Option ℚ`
    coordinates: the source builds them from snapshot data without
    validation and later indexes `position["x"]` / `position["y"]`.
  * The source compares Euclidean distances `d ** 0.5`; since `Real.sqrt`
    is strictly monotone on nonnegatives, comparing squared distances is
    selection-equivalent, so `sq_dist` keeps the squares.
  * `champion_states` is a Python dict keyed by champion id, mutated in
    place; it is modelled as an insertion-ordered association list with
    unique ids, updated functionally.
-/

namespace LoM

/-- A champion `position` object: a dict that may lack either coordinate. -/
structure Pos where
  x? : Option ℚ
  y? : Option ℚ
  deriving DecidableEq

/-- Tracked per-champion state (`ChampionState` in the source). -/
structure ChampionState where
  id : String
  champion : String
  team : String
  health : ℚ
  max_health : ℚ
  level : ℤ
  is_alive : Bool
  position : Pos
  kill_streak : ℕ
  recent_kills : List ℚ
  deriving DecidableEq

/-- One champion record inside a snapshot; every field may be missing. -/
structure ChampData where
  id? : Option String
  champion? : Option String
  team? : Option String
  health? : Option ℚ
  max_health? : Option ℚ
  level? : Option ℤ
  is_alive? : Option Bool
  position? : Option Pos
  deriving DecidableEq

/-- A game-state snapshot as consumed by `EventDetector.detect`. -/
structure Snapshot where
  tick? : Option ℤ
  match_time? : Option ℚ
  status? : Option String
  champions : List ChampData
  blue_nexus_health? : Option ℚ
  red_nexus_health? : Option ℚ
  winner? : Option String
  deriving DecidableEq

/-- The `EventType` enumeration of the source, in full. -/
inductive EventType where
  | championKill
  | firstBlood
  | doubleKill
  | tripleKill
  | multiKill
  | shutdown
  | ace
  | towerDestroyed
  | nexusLow
  | nexusDestroyed
  | closeFight
  | teamfightStart
  | teamfightEnd
  | minionWave
  | pushAdvantage
  | levelUp
  | ultimateReady
  | bigPlay
  | matchStart
  | matchEnd
  deriving DecidableEq

/-- The payload dict attached to an event, one variant per dict literal
built by the source. -/
inductive EventData where
  | empty
  | kill (victim_id victim victim_team : String)
      (killer_id : Option String) (killer : String) (killer_team : Option String)
  | streakData (champion team : String)
  | streakCount (champion team : String) (count : ℕ)
  | shutdownData (victim killer : String) (streak : ℕ)
  | aceData (aced_team by_team : String)
  | nexusData (team : String) (health : ℚ)
  | levelData (champion_id champion team : String) (new_level : ℤ)
  | ultData (champion_id champion team : String)
  | endData (winner : Option String) (duration : ℚ)
  deriving DecidableEq

/-- `GameEvent` of the source. -/
structure GameEvent where
  event_type : EventType
  timestamp : ℚ
  tick : ℤ
  data : EventData
  deriving DecidableEq

/-- The mutable fields of an `EventDetector` instance. -/
structure DetectorState where
  previous_state : Option Snapshot
  champion_states : List ChampionState
  first_blood_occurred : Bool
  alive_blue : ℕ
  alive_red : ℕ
  towers_blue : ℕ
  towers_red : ℕ
  match_started : Bool
  deriving DecidableEq

/-- `EventDetector.__init__`. -/
def initState : DetectorState :=
  { previous_state := none
    champion_states := []
    first_blood_occurred := false
    alive_blue := 0
    alive_red := 0
    towers_blue := 0
    towers_red := 0
    match_started := false }

/-- Bare dict indexing `d[key]`: raises `KeyError` when the key is absent. -/
def getKey (v : Option ℚ) : Except Unit ℚ :=
  match v with
  | some x => Except.ok x
  | none => Except.error ()

/-- The squared distance computed in `_find_likely_killer`, with the
source's coordinate access order; square roots are dropped because
`Real.sqrt` is strictly monotone, which preserves the `<` comparison. -/
def sq_dist (champ victim : ChampionState) : Except Unit ℚ := do
  let cx ← getKey champ.position.x?
  let vx ← getKey victim.position.x?
  let cy ← getKey champ.position.y?
  let vy ← getKey victim.position.y?
  Except.ok ((cx - vx) * (cx - vx) + (cy - vy) * (cy - vy))

/-- The scan loop of `_find_likely_killer`: `acc` holds the closest
qualifying champion so far with its squared distance; `none` plays the
role of the initial infinite distance. -/
def killer_fold (victim : ChampionState) (enemyTeam : String) :
    List ChampionState → Option (ChampionState × ℚ) →
      Except Unit (Option (ChampionState × ℚ))
  | [], acc => Except.ok acc
  | champ :: rest, acc =>
    if champ.team ≠ enemyTeam ∨ champ.is_alive = false then
      killer_fold victim enemyTeam rest acc
    else do
      let d ← sq_dist champ victim
      match acc with
      | none => killer_fold victim enemyTeam rest (some (champ, d))
      | some (best, bestD) =>
        if d < bestD then killer_fold victim enemyTeam rest (some (champ, d))
        else killer_fold victim enemyTeam rest (some (best, bestD))

/-- `EventDetector._find_likely_killer`. -/
def find_likely_killer (victim : ChampionState) (states : List ChampionState) :
    Except Unit (Option ChampionState) :=
  (killer_fold victim (if victim.team = "blue" then "red" else "blue") states none).map
    fun acc => acc.map Prod.fst

/-- Dict lookup `champ_id in self.champion_states` / read. -/
def lookupChamp (states : List ChampionState) (cid : String) : Option ChampionState :=
  states.find? fun c => c.id == cid

/-- In-place mutation of the (unique) entry with id `cid`. -/
def updateChamp (states : List ChampionState) (cid : String)
    (f : ChampionState → ChampionState) : List ChampionState :=
  states.map fun c => if c.id == cid then f c else c

/-- The `ChampionState(...)` constructed on first sighting of a champion
id, with the source's defaults for missing fields. -/
def freshChampion (cd : ChampData) (cid : String) : ChampionState :=
  { id := cid
    champion := cd.champion?.getD "Unknown"
    team := cd.team?.getD "blue"
    health := cd.health?.getD 0
    max_health := cd.max_health?.getD 600
    level := cd.level?.getD 1
    is_alive := cd.is_alive?.getD true
    position := cd.position?.getD ⟨some 0, some 0⟩
    kill_streak := 0
    recent_kills := [] }

/-- The body of `_on_champion_death` once the killer heuristic has
resolved (the heuristic is the method's only fallible step). -/
def death_result (σ : DetectorState) (victim : ChampionState)
    (tick : ℤ) (timestamp : ℚ) (killer? : Option ChampionState) :
    DetectorState × List GameEvent :=
  let killData := EventData.kill victim.id victim.champion victim.team
    (killer?.map ChampionState.id)
    ((killer?.map ChampionState.champion).getD "Unknown")
    (killer?.map ChampionState.team)
  let (σ₁, killEvent) :=
    if σ.first_blood_occurred = false then
      ({σ with first_blood_occurred := true},
        GameEvent.mk EventType.firstBlood timestamp tick killData)
    else
      (σ, GameEvent.mk EventType.championKill timestamp tick killData)
  match killer? with
  | none => (σ₁, [killEvent])
  | some killer =>
    let newKills := (killer.recent_kills ++ [timestamp]).filter fun t =>
      timestamp - t < 10
    let σ₂ := {σ₁ with champion_states := (updateChamp σ₁.champion_states killer.id
      fun c => {c with kill_streak := c.kill_streak + 1, recent_kills := newKills})}
    let recentCount := newKills.length
    let multiEvents : List GameEvent :=
      if recentCount = 2 then
        [GameEvent.mk EventType.doubleKill timestamp tick
          (EventData.streakData killer.champion killer.team)]
      else if recentCount = 3 then
        [GameEvent.mk EventType.tripleKill timestamp tick
          (EventData.streakData killer.champion killer.team)]
      else if recentCount > 3 then
        [GameEvent.mk EventType.multiKill timestamp tick
          (EventData.streakCount killer.champion killer.team recentCount)]
      else []
    let shutdownEvents : List GameEvent :=
      if 3 ≤ victim.kill_streak then
        [GameEvent.mk EventType.shutdown timestamp tick
          (EventData.shutdownData victim.champion killer.champion victim.kill_streak)]
      else []
    (σ₂, killEvent :: (multiEvents ++ shutdownEvents))

/-- `EventDetector._on_champion_death`. -/
def on_champion_death (σ : DetectorState) (victim : ChampionState)
    (tick : ℤ) (timestamp : ℚ) : Except Unit (DetectorState × List GameEvent) :=
  (find_likely_killer victim σ.champion_states).map (death_result σ victim tick timestamp)

/-- The state refresh and level-up checks of `_process_champion`, run
after the death check on an already-tracked champion. -/
def settle_champion (prev : ChampionState) (cd : ChampData) (cid : String)
    (tick : ℤ) (timestamp : ℚ) (σ₁ : DetectorState) (deathEvents : List GameEvent) :
    DetectorState × List GameEvent :=
  let is_alive := cd.is_alive?.getD true
  let level := cd.level?.getD 1
  let σ₂ :=
    if prev.is_alive = false ∧ is_alive = true then
      {σ₁ with champion_states := (updateChamp σ₁.champion_states cid
        fun c => {c with kill_streak := 0})}
    else σ₁
  let levelEvents : List GameEvent :=
    if prev.level < level then
      GameEvent.mk EventType.levelUp timestamp tick
          (EventData.levelData cid prev.champion prev.team level) ::
        (if level = 6 then
          [GameEvent.mk EventType.ultimateReady timestamp tick
            (EventData.ultData cid prev.champion prev.team)]
        else [])
    else []
  let σ₃ := {σ₂ with champion_states := (updateChamp σ₂.champion_states cid
    fun c => {c with
      health := cd.health?.getD 0
      max_health := cd.max_health?.getD 600
      level := level
      is_alive := is_alive
      position := cd.position?.getD ⟨some 0, some 0⟩})}
  (σ₃, deathEvents ++ levelEvents)

/-- `EventDetector._process_champion`. -/
def process_champion (σ : DetectorState) (cd : ChampData)
    (tick : ℤ) (timestamp : ℚ) : Except Unit (DetectorState × List GameEvent) :=
  let cid := cd.id?.getD ""
  match lookupChamp σ.champion_states cid with
  | none =>
    Except.ok ({σ with champion_states := σ.champion_states ++ [freshChampion cd cid]}, [])
  | some prev =>
    (if prev.is_alive = true ∧ (cd.is_alive?.getD true) = false then
        on_champion_death σ prev tick timestamp
      else Except.ok (σ, [])).map
      fun p => settle_champion prev cd cid tick timestamp p.1 p.2

/-- The per-champion loop of `detect`. -/
def process_champions : DetectorState → List ChampData → ℤ → ℚ →
    Except Unit (DetectorState × List GameEvent)
  | σ, [], _, _ => Except.ok (σ, [])
  | σ, cd :: rest, tick, timestamp => do
    let (σ₁, evs) ← process_champion σ cd tick timestamp
    let (σ₂, evs') ← process_champions σ₁ rest tick timestamp
    Except.ok (σ₂, evs ++ evs')

/-- The team-alive count of `_check_ace`. -/
def aliveOnTeam (states : List ChampionState) (team : String) : ℕ :=
  (states.filter fun c => c.team == team && c.is_alive).length

/-- `EventDetector._check_ace`; the source iterates blue then red. -/
def check_ace (σ : DetectorState) (tick : ℤ) (timestamp : ℚ) :
    DetectorState × List GameEvent :=
  let aliveB := aliveOnTeam σ.champion_states "blue"
  let aliveR := aliveOnTeam σ.champion_states "red"
  let evB : List GameEvent :=
    if 0 < σ.alive_blue ∧ aliveB = 0 then
      [GameEvent.mk EventType.ace timestamp tick (EventData.aceData "blue" "red")]
    else []
  let evR : List GameEvent :=
    if 0 < σ.alive_red ∧ aliveR = 0 then
      [GameEvent.mk EventType.ace timestamp tick (EventData.aceData "red" "blue")]
    else []
  ({σ with alive_blue := aliveB, alive_red := aliveR}, evB ++ evR)

/-- `EventDetector._process_structures` (only nexus checks exist). -/
def process_structures (s : Snapshot) (tick : ℤ) (timestamp : ℚ) : List GameEvent :=
  let evFor := fun (team : String) (h? : Option ℚ) =>
    let h := h?.getD 5000
    if h ≤ 1000 ∧ 0 < h then
      [GameEvent.mk EventType.nexusLow timestamp tick (EventData.nexusData team h)]
    else []
  evFor "blue" s.blue_nexus_health? ++ evFor "red" s.red_nexus_health?

/-- The match-start section at the top of `detect`. -/
def match_start_step (σ : DetectorState) (s : Snapshot)
    (tick : ℤ) (timestamp : ℚ) : DetectorState × List GameEvent :=
  if σ.match_started = false ∧ s.status? = some "playing" then
    ({σ with match_started := true},
      [GameEvent.mk EventType.matchStart timestamp tick EventData.empty])
  else (σ, [])

/-- The match-end section at the bottom of `detect`. -/
def match_end_events (s : Snapshot) (tick : ℤ) (timestamp : ℚ) : List GameEvent :=
  if s.status? = some "ended" then
    [GameEvent.mk EventType.matchEnd timestamp tick
      (EventData.endData s.winner? timestamp)]
  else []

/-- `EventDetector.detect`. -/
def detect (σ : DetectorState) (s : Snapshot) :
    Except Unit (DetectorState × List GameEvent) := do
  let tick := s.tick?.getD 0
  let timestamp := s.match_time?.getD 0
  let startPair := match_start_step σ s tick timestamp
  let (σ₂, champEvents) ← process_champions startPair.1 s.champions tick timestamp
  let acePair := check_ace σ₂ tick timestamp
  Except.ok ({acePair.1 with previous_state := some s},
    startPair.2 ++ champEvents ++ acePair.2 ++
      process_structures s tick timestamp ++ match_end_events s tick timestamp)

/-- Feeding a run of snapshots to one detector instance, concatenating
the emitted events. -/
def runDetect : DetectorState → List Snapshot →
    Except Unit (DetectorState × List GameEvent)
  | σ, [] => Except.ok (σ, [])
  | σ, s :: rest => do
    let (σ₁, evs) ← detect σ s
    let (σ₂, evs') ← runDetect σ₁ rest
    Except.ok (σ₂, evs ++ evs')

/-! ### Spectator broadcast fan-out (`CommentaryEngine.broadcast_commentary`)

A spectator is a member of the live set; `closed = true` models a
connection whose `send` raises `ConnectionClosed`.  The source loops over
every current member, catching the failure per member and collecting the
failed ones, and subtracts them from the set only after the loop. -/

structure Spectator where
  sid : ℕ
  closed : Bool
  deriving DecidableEq

/-- Outcome of the fan-out loop over the member list: who was attempted,
who received the message, who raised `ConnectionClosed`. -/
structure BroadcastResult where
  attempted : List ℕ
  delivered : List ℕ
  disconnected : List ℕ
  deriving DecidableEq

/-- The `for ws in self.spectators` loop body of `broadcast_commentary`. -/
def broadcastPass : List Spectator → BroadcastResult
  | [] => ⟨[], [], []⟩
  | m :: rest =>
    let r := broadcastPass rest
    if m.closed then
      ⟨m.sid :: r.attempted, r.delivered, m.sid :: r.disconnected⟩
    else
      ⟨m.sid :: r.attempted, m.sid :: r.delivered, r.disconnected⟩

/-- `broadcast_commentary`: full fan-out pass, then
`self.spectators -= disconnected`. -/
def broadcast_commentary (members : List Spectator) :
    BroadcastResult × List Spectator :=
  let r := broadcastPass members
  (r, members.filter fun m => !(r.disconnected.contains m.sid))

/-! ### Commentary generator fast path
(`CommentaryGenerator.generate_template`)

A template string is a list of pieces: literal text and `\x7bname\x7d`
placeholders (with an optional format spec, e.g. `.0f`).  `str.format`
raises `KeyError` exactly when a placeholder name is missing from the
payload dict; the numeric rendering of present values is abstracted by
`Value.render`, which no claim depends on. -/

inductive Piece where
  | lit (s : String)
  | hole (name : String) (spec : String)
  deriving DecidableEq

/-- The raw text of a piece, placeholders intact. -/
def Piece.raw : Piece → String
  | .lit s => s
  | .hole n spec => "\x7b" ++ n ++ (if spec = "" then "" else ":" ++ spec) ++ "\x7d"

/-- The raw text of a whole template string. -/
def rawTemplate (t : List Piece) : String := String.join (t.map Piece.raw)

/-- A payload value as seen by `str.format`. -/
inductive Value where
  | vstr (s : String)
  | vnum (q : ℚ)
  | vint (n : ℤ)
  | vnat (n : ℕ)
  | vnone
  deriving DecidableEq

/-- String rendering of a payload value (exact numeric formatting
abstracted; no claim depends on it). -/
def Value.render : Value → String
  | .vstr s => s
  | .vnum q => toString q.num ++ "/" ++ toString q.den
  | .vint n => toString n
  | .vnat n => toString n
  | .vnone => "None"

/-- The dict view of each event payload, mirroring the dict literals
built at the emission sites of `event_detector.py`. -/
def EventData.fields : EventData → List (String × Value)
  | .empty => []
  | .kill vid v vt kid k kt =>
    [("victim_id", .vstr vid), ("victim", .vstr v), ("victim_team", .vstr vt),
     ("killer_id", kid.elim Value.vnone Value.vstr), ("killer", .vstr k),
     ("killer_team", kt.elim Value.vnone Value.vstr)]
  | .streakData c t => [("champion", .vstr c), ("team", .vstr t)]
  | .streakCount c t n => [("champion", .vstr c), ("team", .vstr t), ("count", .vnat n)]
  | .shutdownData v k s => [("victim", .vstr v), ("killer", .vstr k), ("streak", .vnat s)]
  | .aceData a b => [("aced_team", .vstr a), ("by_team", .vstr b)]
  | .nexusData t h => [("team", .vstr t), ("health", .vnum h)]
  | .levelData cid c t l =>
    [("champion_id", .vstr cid), ("champion", .vstr c), ("team", .vstr t),
     ("new_level", .vint l)]
  | .ultData cid c t =>
    [("champion_id", .vstr cid), ("champion", .vstr c), ("team", .vstr t)]
  | .endData w d => [("winner", w.elim Value.vnone Value.vstr), ("duration", .vnum d)]

/-- `template.format(**event.data)`: `none` models the `KeyError` raised
when a placeholder references an absent payload field. -/
def formatTemplate : List Piece → List (String × Value) → Option String
  | [], _ => some ""
  | .lit l :: rest, data => (formatTemplate rest data).map fun s => l ++ s
  | .hole n _ :: rest, data =>
    match data.lookup n with
    | none => none
    | some v => (formatTemplate rest data).map fun s => v.render ++ s

/-- The `TEMPLATES` table, translated template by template; event types
absent from the table map to `none` (dict `.get` miss). -/
def TEMPLATES : EventType → Option (List (List Piece))
  | .matchStart => some
    [[.lit "Welcome to the Rift! The match has begun!"],
     [.lit "Let\x27s get ready to rumble! Match is starting!"],
     [.lit "Champions are taking their positions. The battle begins!"]]
  | .firstBlood => some
    [[.hole "killer" "", .lit " draws first blood on ", .hole "victim" "", .lit "!"],
     [.lit "FIRST BLOOD! ", .hole "killer" "", .lit " takes down ", .hole "victim" "", .lit "!"],
     [.hole "killer" "", .lit " gets the first kill of the game against ", .hole "victim" "", .lit "!"]]
  | .championKill => some
    [[.hole "killer" "", .lit " eliminates ", .hole "victim" "", .lit "!"],
     [.hole "victim" "", .lit " has been slain by ", .hole "killer" "", .lit "."],
     [.hole "killer" "", .lit " takes down ", .hole "victim" "", .lit "!"],
     [.lit "And ", .hole "victim" "", .lit " goes down to ", .hole "killer" "", .lit "!"]]
  | .doubleKill => some
    [[.lit "DOUBLE KILL for ", .hole "champion" "", .lit "!"],
     [.hole "champion" "", .lit " picks up a double kill!"],
     [.lit "Two down! ", .hole "champion" "", .lit " is on fire!"]]
  | .tripleKill => some
    [[.lit "TRIPLE KILL! ", .hole "champion" "", .lit " is unstoppable!"],
     [.hole "champion" "", .lit " with the TRIPLE KILL!"],
     [.lit "Three kills for ", .hole "champion" "", .lit "! What a play!"]]
  | .multiKill => some
    [[.hole "champion" "", .lit " IS ON A RAMPAGE! ", .hole "count" "", .lit " KILLS!"],
     [.lit "LEGENDARY! ", .hole "champion" "", .lit " with ", .hole "count" "", .lit " kills!"],
     [.hole "champion" "", .lit " is absolutely dominating with ", .hole "count" "", .lit " kills!"]]
  | .shutdown => some
    [[.hole "killer" "", .lit " SHUTS DOWN ", .hole "victim" "", .lit "! End of a ",
      .hole "streak" "", .lit " kill streak!"],
     [.lit "The rampage is over! ", .hole "killer" "", .lit " stops ", .hole "victim" "", .lit "!"],
     [.hole "killer" "", .lit " puts an end to ", .hole "victim" "", .lit "\x27s killing spree!"]]
  | .ace => some
    [[.lit "ACE! ", .hole "by_team" "", .lit " team wipes out ", .hole "aced_team" "", .lit "!"],
     [.lit "ACED! Not a single ", .hole "aced_team" "", .lit " champion standing!"],
     [.lit "Total annihilation! ", .hole "by_team" "", .lit " aces ", .hole "aced_team" "", .lit "!"]]
  | .towerDestroyed => some
    [[.hole "team" "", .lit "\x27s tower has been destroyed!"],
     [.lit "Tower down for ", .hole "team" "", .lit "!"],
     [.lit "Another tower falls for ", .hole "team" "", .lit "!"]]
  | .nexusLow => some
    [[.hole "team" "", .lit "\x27s nexus is critical! Only ", .hole "health" "", .lit " HP remaining!"],
     [.lit "The ", .hole "team" "", .lit " nexus is under heavy attack!"],
     [.lit "Things are looking dire for ", .hole "team" "", .lit "!"]]
  | .nexusDestroyed => some
    [[.hole "winner" "", .lit " destroys the nexus! VICTORY!"],
     [.lit "GG! ", .hole "winner" "", .lit " wins the match!"],
     [.lit "And that\x27s the game! ", .hole "winner" "", .lit " takes the victory!"]]
  | .levelUp => some
    [[.hole "champion" "", .lit " reaches level ", .hole "new_level" "", .lit "."],
     [.hole "champion" "", .lit " levels up to ", .hole "new_level" "", .lit "!"]]
  | .ultimateReady => some
    [[.hole "champion" "", .lit "\x27s ultimate is now available!"],
     [.lit "Watch out! ", .hole "champion" "", .lit " has their ultimate ready!"]]
  | .matchEnd => some
    [[.lit "GG! ", .hole "winner" "", .lit " wins in ", .hole "duration" ".0f", .lit " seconds!"],
     [.lit "What a match! ", .hole "winner" "", .lit " takes the victory!"],
     [.lit "And it\x27s over! ", .hole "winner" "", .lit " claims victory!"]]
  | _ => none

/-- `random.choice(templates)`, with the random draw made explicit as an
index `pick` (the source draws uniformly; any index can be drawn). -/
def templateChoice (ts : List (List Piece)) (pick : ℕ) : List Piece :=
  ts.getD (pick % ts.length) []

/-- `CommentaryGenerator.generate_template`: pick a template for the
event type (none-or-empty table entry gives no text), substitute the
payload, and fall back to the raw template on `KeyError`. -/
def generate_template (pick : ℕ) (e : GameEvent) : Option String :=
  match TEMPLATES e.event_type with
  | none => none
  | some ts =>
    if ts.isEmpty then none
    else
      let t := templateChoice ts pick
      match formatTemplate t e.data.fields with
      | some s => some s
      | none => some (rawTemplate t)

/-! ### Definitions used by the verification statements -/

deriving instance DecidableEq for Except

/-- A kill-classification event: the per-death event that is either
FIRST_BLOOD or CHAMPION_KILL. -/
def killClass (e : GameEvent) : Bool :=
  e.event_type == EventType.firstBlood || e.event_type == EventType.championKill

/-- Well-formed shape for the kill-classification subsequence of a run's
output: empty, or FIRST_BLOOD first and CHAMPION_KILL ever after. -/
def killSeqOK : List GameEvent → Bool
  | [] => true
  | e :: rest =>
    e.event_type == EventType.firstBlood &&
      rest.all fun e2 => e2.event_type == EventType.championKill

/-- The event types the per-champion stage can emit. -/
def champKinds : List EventType :=
  [EventType.firstBlood, EventType.championKill, EventType.doubleKill,
   EventType.tripleKill, EventType.multiKill, EventType.shutdown,
   EventType.levelUp, EventType.ultimateReady]

/-- A position object carrying both coordinates (what
`_find_likely_killer` indexes without checking). -/
def posWF (p : Pos) : Bool := p.x?.isSome && p.y?.isSome

/-- A position field that, when present at all, is complete. -/
def optPosWF : Option Pos → Bool
  | none => true
  | some p => posWF p

/-- All tracked champions have complete positions. -/
def statesWF (states : List ChampionState) : Prop :=
  ∀ c ∈ states, posWF c.position = true

/-- All champion records of a snapshot have complete positions whenever
a position object is present at all. -/
def snapWF (s : Snapshot) : Prop :=
  ∀ cd ∈ s.champions, optPosWF cd.position? = true

/-- A tracked champion used in concrete scenarios. -/
def mkChamp (cid team : String) (x y : ℚ) : ChampionState :=
  { id := cid, champion := cid, team := team, health := 600, max_health := 600,
    level := 1, is_alive := true, position := ⟨some x, some y⟩,
    kill_streak := 0, recent_kills := [] }

/-- The killer of the multi-kill scenario, with its tracked streak and
recent-kill window. -/
def c2Killer (streak : ℕ) (kills : List ℚ) : ChampionState :=
  { mkChamp "k" "red" 0 0 with kill_streak := streak, recent_kills := kills }

/-- The victims of the multi-kill scenario. -/
def c2Victim (cid : String) : ChampionState := mkChamp cid "blue" 1 0

/-- Detector state of the multi-kill scenario: one red killer, four blue
victims; the killer is the only alive enemy of every victim, so the
nearest-enemy heuristic always resolves to it. -/
def c2State (streak : ℕ) (kills : List ℚ) (fb : Bool) : DetectorState :=
  { initState with
    champion_states :=
      [c2Killer streak kills, c2Victim "v1", c2Victim "v2", c2Victim "v3",
       c2Victim "v4"]
    first_blood_occurred := fb }

/-- The kill event emitted for a scenario victim. -/
def c2Kill (t : EventType) (timestamp : ℚ) (tick : ℤ) (vid : String) : GameEvent :=
  ⟨t, timestamp, tick,
    EventData.kill vid vid "blue" (some "k") "k" (some "red")⟩

/-- A snapshot record with every champion field present. -/
def champCD (cid team : String) (x y : ℚ) (alive : Bool) : ChampData :=
  { id? := some cid, champion? := some cid, team? := some team,
    health? := some 600, max_health? := some 600, level? := some 1,
    is_alive? := some alive, position? := some ⟨some x, some y⟩ }

/-- An already-ended snapshot, fed twice for the MATCH_END counterexample. -/
def endedSnap : Snapshot :=
  { tick? := some 5, match_time? := some 100, status? := some "ended",
    champions := [], blue_nexus_health? := some 5000,
    red_nexus_health? := some 5000, winner? := some "blue" }

/-- First snapshot of the KeyError counterexample: champion `a` arrives
with a position object that has no coordinates, and is adopted as-is. -/
def c6Snap1 : Snapshot :=
  { tick? := some 0, match_time? := some 0, status? := some "playing",
    champions :=
      [{ champCD "a" "blue" 0 0 true with position? := some ⟨none, none⟩ },
       champCD "b" "red" 0 0 true],
    blue_nexus_health? := some 5000, red_nexus_health? := some 5000,
    winner? := none }

/-- Second snapshot of the KeyError counterexample: `a` dies, so the
killer heuristic indexes `a`'s coordinate-less stored position. -/
def c6Snap2 : Snapshot :=
  { tick? := some 1, match_time? := some 1, status? := some "playing",
    champions :=
      [{ id? := some "a", champion? := none, team? := none, health? := none,
         max_health? := none, level? := none, is_alive? := some false,
         position? := none }],
    blue_nexus_health? := some 5000, red_nexus_health? := some 5000,
    winner? := none }

/-- First demonstration snapshot: two blue champions appear (with no
opposing champion, deaths resolve no killer, which keeps every branch of
the run free of real-number arithmetic). -/
def demoSnap0 : Snapshot :=
  { tick? := some 0, match_time? := some 0, status? := some "playing",
    champions := [champCD "a" "blue" 1 0 true, champCD "c" "blue" 2 0 true],
    blue_nexus_health? := some 5000, red_nexus_health? := some 5000,
    winner? := none }

/-- Second demonstration snapshot: champion `a` dies. -/
def demoSnap1 : Snapshot :=
  { demoSnap0 with
    tick? := some 1
    match_time? := some 1
    champions := [champCD "a" "blue" 1 0 false, champCD "c" "blue" 2 0 true] }

/-- Third demonstration snapshot: champion `c` dies too. -/
def demoSnap2 : Snapshot :=
  { demoSnap0 with
    tick? := some 2
    match_time? := some 2
    champions := [champCD "a" "blue" 1 0 false, champCD "c" "blue" 2 0 false] }

/-- A small demonstration run: two champions appear, then die in turn. -/
def demoRun : List Snapshot := [demoSnap0, demoSnap1, demoSnap2]

/-- The outcome of the demonstration run, as a total value. -/
def demoPair : DetectorState × List GameEvent :=
  (runDetect initState demoRun).toOption.getD (initState, [])

/-- The outcome of one `detect` call on the already-ended snapshot. -/
def c1Pair : DetectorState × List GameEvent :=
  (detect initState endedSnap).toOption.getD (initState, [])

/-- The outcome of one `detect` call on the first demonstration snapshot. -/
def c5Pair : DetectorState × List GameEvent :=
  (detect initState demoSnap0).toOption.getD (initState, [])

/-- A snapshot whose blue nexus is low. -/
def lowNexusSnap : Snapshot :=
  { demoSnap0 with champions := [], blue_nexus_health? := some 500 }

/-- The outcome of one `detect` call on the low-nexus snapshot. -/
def c8Pair : DetectorState × List GameEvent :=
  (detect initState lowNexusSnap).toOption.getD (initState, [])

/-- A victim on a three-kill streak, for the shutdown scenario. -/
def c4Victim : ChampionState := { c2Victim "v1" with kill_streak := 3 }

/-- The death handler's outcome for the shutdown scenario. -/
def c4Pair : DetectorState × List GameEvent :=
  (on_champion_death (c2State 0 [] false) c4Victim 1 5).toOption.getD (initState, [])

/-- Detector state with no alive enemy for any blue victim. -/
def c10State : DetectorState :=
  { initState with champion_states := [c2Victim "v1"] }

/-- Spectator set for the broadcast scenario: three members, exactly one
of them with a closed connection. -/
def c7Members : List Spectator := [⟨0, false⟩, ⟨1, true⟩, ⟨2, false⟩]

/-- An event whose template set references payload fields (`team`) while
the event carries an empty payload. -/
def c9Event : GameEvent := ⟨EventType.towerDestroyed, 0, 0, EventData.empty⟩

/-- An event whose type has no entry in the template table. -/
def c9NoTemplate : GameEvent := ⟨EventType.bigPlay, 0, 0, EventData.empty⟩

/-- Did the nearest-enemy heuristic succeed and name a killer? -/
def killerResolved : Except Unit (Option ChampionState) → Bool
  | .ok (some _) => true
  | _ => false

/-- How one processing step relates the incoming and outgoing first-blood
flag to the kill-classification events it emits. -/
def fbStep (fb fb' : Bool) (ks : List GameEvent) : Prop :=
  fb' = (fb || !ks.isEmpty) ∧
  (if fb = true then ∀ e ∈ ks, e.event_type = EventType.championKill
   else killSeqOK ks = true)

/-! ### Basic lemmas about the embedding -/

theorem except_bind_ok {α β : Type} (x : α) (f : α → Except Unit β) :
    (Except.ok x >>= f : Except Unit β) = f x := rfl

theorem except_bind_error {α β : Type} (e : Unit) (f : α → Except Unit β) :
    (Except.error e >>= f : Except Unit β) = Except.error e := rfl

theorem except_map_ok {α β : Type} (x : α) (f : α → β) :
    (Except.map f (Except.ok x) : Except Unit β) = Except.ok (f x) := rfl

theorem except_map_error {α β : Type} (e : Unit) (f : α → β) :
    (Except.map f (Except.error e) : Except Unit β) = Except.error e := rfl

/-- `detect` written as an explicit bind on the champion stage. -/
theorem detect_eq_bind (σ : DetectorState) (s : Snapshot) :
    detect σ s =
      (process_champions
          (match_start_step σ s (s.tick?.getD 0) (s.match_time?.getD 0)).1
          s.champions (s.tick?.getD 0) (s.match_time?.getD 0)) >>= fun p =>
        Except.ok
          ({(check_ace p.1 (s.tick?.getD 0) (s.match_time?.getD 0)).1 with
              previous_state := some s},
            (match_start_step σ s (s.tick?.getD 0) (s.match_time?.getD 0)).2 ++
              p.2 ++
              (check_ace p.1 (s.tick?.getD 0) (s.match_time?.getD 0)).2 ++
              process_structures s (s.tick?.getD 0) (s.match_time?.getD 0) ++
              match_end_events s (s.tick?.getD 0) (s.match_time?.getD 0)) := rfl

/-- Elimination principle for a successful `detect` call. -/
theorem detect_ok_elim {σ : DetectorState} {s : Snapshot} {σ' : DetectorState}
    {evs : List GameEvent} (h : detect σ s = .ok (σ', evs)) :
    ∃ σ₂ champEvs,
      process_champions
          (match_start_step σ s (s.tick?.getD 0) (s.match_time?.getD 0)).1
          s.champions (s.tick?.getD 0) (s.match_time?.getD 0) = .ok (σ₂, champEvs) ∧
      σ' = {(check_ace σ₂ (s.tick?.getD 0) (s.match_time?.getD 0)).1 with
              previous_state := some s} ∧
      evs = (match_start_step σ s (s.tick?.getD 0) (s.match_time?.getD 0)).2 ++
              champEvs ++
              (check_ace σ₂ (s.tick?.getD 0) (s.match_time?.getD 0)).2 ++
              process_structures s (s.tick?.getD 0) (s.match_time?.getD 0) ++
              match_end_events s (s.tick?.getD 0) (s.match_time?.getD 0) := by
  rw [detect_eq_bind] at h
  cases hp : process_champions
      (match_start_step σ s (s.tick?.getD 0) (s.match_time?.getD 0)).1
      s.champions (s.tick?.getD 0) (s.match_time?.getD 0) with
  | error e => rw [hp, except_bind_error] at h; exact absurd h (by simp)
  | ok p =>
    rw [hp, except_bind_ok] at h
    injection h with h1
    injection h1 with hσ hevs
    exact ⟨p.1, p.2, rfl, hσ.symm, hevs.symm⟩

/-- The match-start section only emits MATCH_START. -/
theorem match_start_step_kinds (σ : DetectorState) (s : Snapshot) (tk : ℤ) (ts : ℚ) :
    ∀ e ∈ (match_start_step σ s tk ts).2, e.event_type = EventType.matchStart := by
  intro e he
  unfold match_start_step at he
  split at he
  · simp at he; subst he; rfl
  · simp at he

/-- The ace section only emits ACE. -/
theorem check_ace_kinds (σ : DetectorState) (tk : ℤ) (ts : ℚ) :
    ∀ e ∈ (check_ace σ tk ts).2, e.event_type = EventType.ace := by
  intro e he
  unfold check_ace at he
  simp only [List.mem_append] at he
  rcases he with he | he <;> split at he <;> simp at he <;> (subst he; rfl)

/-- The structures section only emits NEXUS_LOW. -/
theorem process_structures_kinds (s : Snapshot) (tk : ℤ) (ts : ℚ) :
    ∀ e ∈ process_structures s tk ts, e.event_type = EventType.nexusLow := by
  intro e he
  unfold process_structures at he
  simp only [List.mem_append] at he
  rcases he with he | he <;> split at he <;> simp at he <;> (subst he; rfl)

/-- The match-end section only emits MATCH_END, with the snapshot's
winner and its match time as duration. -/
theorem match_end_events_shape (s : Snapshot) (tk : ℤ) (ts : ℚ) :
    ∀ e ∈ match_end_events s tk ts,
      e = GameEvent.mk EventType.matchEnd ts tk (EventData.endData s.winner? ts) := by
  intro e he
  unfold match_end_events at he
  split at he
  · simp at he; subst he; rfl
  · simp at he

/-- MATCH_END count of the match-end section: one exactly when the
snapshot status is "ended". -/
theorem match_end_events_count (s : Snapshot) (tk : ℤ) (ts : ℚ) :
    (match_end_events s tk ts).countP (fun e => e.event_type == EventType.matchEnd) =
      if s.status? = some "ended" then 1 else 0 := by
  unfold match_end_events
  split <;> simp

/-- `check_ace` does not touch the champion map. -/
theorem check_ace_states (σ : DetectorState) (tk : ℤ) (ts : ℚ) :
    (check_ace σ tk ts).1.champion_states = σ.champion_states := rfl

/-- `check_ace` stores the current alive counts unconditionally. -/
theorem check_ace_stores (σ : DetectorState) (tk : ℤ) (ts : ℚ) :
    (check_ace σ tk ts).1.alive_blue = aliveOnTeam σ.champion_states "blue" ∧
    (check_ace σ tk ts).1.alive_red = aliveOnTeam σ.champion_states "red" := ⟨rfl, rfl⟩

/-- Core facts about one death: the first-blood flag is set afterwards,
only `champion_states` and the flag change, and the kill-classification
events amount to exactly one kill event — FIRST_BLOOD when the flag was
unset, CHAMPION_KILL otherwise — naming victim and resolved killer. -/
theorem death_result_core (σ : DetectorState) (v : ChampionState) (tk : ℤ) (ts : ℚ)
    (k? : Option ChampionState) :
    (death_result σ v tk ts k?).1.first_blood_occurred = true ∧
    (death_result σ v tk ts k?).1.alive_blue = σ.alive_blue ∧
    (death_result σ v tk ts k?).1.alive_red = σ.alive_red ∧
    (death_result σ v tk ts k?).1.match_started = σ.match_started ∧
    (death_result σ v tk ts k?).1.previous_state = σ.previous_state ∧
    (death_result σ v tk ts k?).2.filter killClass =
      [GameEvent.mk
        (if σ.first_blood_occurred then EventType.championKill else EventType.firstBlood)
        ts tk
        (EventData.kill v.id v.champion v.team (k?.map ChampionState.id)
          ((k?.map ChampionState.champion).getD "Unknown")
          (k?.map ChampionState.team))] := by
  unfold death_result
  cases k? <;> by_cases hfb : σ.first_blood_occurred = false <;>
    simp [hfb, killClass] <;> split_ifs <;> simp_all [killClass]

/-- Every event of one death is of a per-champion kind. -/
theorem death_result_kinds (σ : DetectorState) (v : ChampionState) (tk : ℤ) (ts : ℚ)
    (k? : Option ChampionState) :
    ∀ e ∈ (death_result σ v tk ts k?).2, e.event_type ∈ champKinds := by
  intro e he
  unfold death_result at he
  cases k? <;> by_cases hfb : σ.first_blood_occurred = false <;>
    simp [hfb] at he <;> rcases he with he | he | he <;>
    simp_all [champKinds] <;> split_ifs at he <;> simp_all [champKinds]

/-- Elimination principle for a successful `_on_champion_death`. -/
theorem on_champion_death_ok_elim {σ : DetectorState} {v : ChampionState} {tk : ℤ}
    {ts : ℚ} {r : DetectorState × List GameEvent}
    (h : on_champion_death σ v tk ts = .ok r) :
    ∃ k?, find_likely_killer v σ.champion_states = .ok k? ∧
      r = death_result σ v tk ts k? := by
  unfold on_champion_death at h
  cases hk : find_likely_killer v σ.champion_states <;> rw [hk] at h
  · rw [except_map_error] at h; exact absurd h (by simp)
  · rw [except_map_ok] at h
    injection h with h1
    exact ⟨_, rfl, h1.symm⟩

/-- `settle_champion` refreshes only the champion map: the flag, the
stored alive counts and the other scalar fields pass through, and the
emitted events are the death events plus level events only. -/
theorem settle_champion_core (prev : ChampionState) (cd : ChampData) (cid : String)
    (tk : ℤ) (ts : ℚ) (σ₁ : DetectorState) (dEvs : List GameEvent) :
    (settle_champion prev cd cid tk ts σ₁ dEvs).1.first_blood_occurred =
        σ₁.first_blood_occurred ∧
    (settle_champion prev cd cid tk ts σ₁ dEvs).1.alive_blue = σ₁.alive_blue ∧
    (settle_champion prev cd cid tk ts σ₁ dEvs).1.alive_red = σ₁.alive_red ∧
    (settle_champion prev cd cid tk ts σ₁ dEvs).1.match_started = σ₁.match_started ∧
    (settle_champion prev cd cid tk ts σ₁ dEvs).1.previous_state = σ₁.previous_state ∧
    (settle_champion prev cd cid tk ts σ₁ dEvs).2.filter killClass =
        dEvs.filter killClass ∧
    ∀ e ∈ (settle_champion prev cd cid tk ts σ₁ dEvs).2,
      e ∈ dEvs ∨ e.event_type ∈ champKinds := by
  simp only [settle_champion]
  split_ifs <;>
    refine ⟨rfl, rfl, rfl, rfl, rfl, by simp [killClass, List.filter_append], ?_⟩ <;>
    intro e he <;>
    rcases List.mem_append.1 he with hm | hm <;>
    first
    | exact Or.inl hm
    | simp only [List.not_mem_nil] at hm
    | (right
       simp only [List.mem_cons, List.mem_singleton, List.not_mem_nil, or_false] at hm
       rcases hm with rfl | rfl <;> simp [champKinds])

/-- One champion record: stored alive counts, match-started flag and
previous-state field pass through; all events are per-champion kinds;
and the kill-classification output is empty (no death edge) or exactly
one kill event whose type is decided by the incoming first-blood flag,
which is then set. -/
theorem process_champion_core {σ : DetectorState} {cd : ChampData} {tk : ℤ} {ts : ℚ}
    {σ' : DetectorState} {evs : List GameEvent}
    (h : process_champion σ cd tk ts = .ok (σ', evs)) :
    σ'.alive_blue = σ.alive_blue ∧ σ'.alive_red = σ.alive_red ∧
    σ'.match_started = σ.match_started ∧ σ'.previous_state = σ.previous_state ∧
    (∀ e ∈ evs, e.event_type ∈ champKinds) ∧
    ((σ'.first_blood_occurred = σ.first_blood_occurred ∧ evs.filter killClass = []) ∨
     (σ'.first_blood_occurred = true ∧ ∃ d,
        evs.filter killClass =
          [GameEvent.mk
            (if σ.first_blood_occurred then EventType.championKill
             else EventType.firstBlood) ts tk d])) := by
  simp only [process_champion] at h
  cases hl : lookupChamp σ.champion_states (cd.id?.getD "") <;> rw [hl] at h
  · injection h with h1
    injection h1 with hσ hevs
    subst hσ; subst hevs
    refine ⟨rfl, rfl, rfl, rfl, by simp, Or.inl ⟨rfl, rfl⟩⟩
  case some prev =>
    replace h : Except.map (fun p => settle_champion prev cd (cd.id?.getD "") tk ts p.1 p.2)
        (if prev.is_alive = true ∧ cd.is_alive?.getD true = false then
          on_champion_death σ prev tk ts
        else Except.ok (σ, [])) = Except.ok (σ', evs) := h
    by_cases hd : prev.is_alive = true ∧ (cd.is_alive?.getD true) = false
    · rw [if_pos hd] at h
      cases hk : on_champion_death σ prev tk ts <;> rw [hk] at h
      · rw [except_map_error] at h; exact absurd h (by simp)
      next r =>
        rw [except_map_ok] at h
        injection h with h1
        obtain ⟨k?, _, hr⟩ := on_champion_death_ok_elim hk
        obtain ⟨hs1, hs2, hs3, hs4, hs5, hs6, hs7⟩ :=
          settle_champion_core prev cd (cd.id?.getD "") tk ts r.1 r.2
        obtain ⟨hd1, hd2, hd3, hd4, hd5, hd6⟩ :=
          death_result_core σ prev tk ts k?
        have hσ' : σ' = (settle_champion prev cd (cd.id?.getD "") tk ts r.1 r.2).1 := by
          rw [h1]
        have hevs : evs = (settle_champion prev cd (cd.id?.getD "") tk ts r.1 r.2).2 := by
          rw [h1]
        subst hσ'; subst hevs
        have hr1 : r.1 = (death_result σ prev tk ts k?).1 := by rw [hr]
        have hr2 : r.2 = (death_result σ prev tk ts k?).2 := by rw [hr]
        refine ⟨?_, ?_, ?_, ?_, ?_, Or.inr ⟨?_, ?_⟩⟩
        · rw [hs2, hr1, hd2]
        · rw [hs3, hr1, hd3]
        · rw [hs4, hr1, hd4]
        · rw [hs5, hr1, hd5]
        · intro e he
          rcases hs7 e he with hmem | hkind
          · exact death_result_kinds σ prev tk ts k? e (hr2 ▸ hmem)
          · exact hkind
        · rw [hs1, hr1, hd1]
        · refine ⟨EventData.kill prev.id prev.champion prev.team (k?.map ChampionState.id)
            ((k?.map ChampionState.champion).getD "Unknown") (k?.map ChampionState.team), ?_⟩
          rw [hs6, hr2, hd6]
    · rw [if_neg hd] at h
      rw [except_map_ok] at h
      injection h with h1
      obtain ⟨hs1, hs2, hs3, hs4, hs5, hs6, hs7⟩ :=
        settle_champion_core prev cd (cd.id?.getD "") tk ts σ []
      have hσ' : σ' = (settle_champion prev cd (cd.id?.getD "") tk ts σ []).1 := by
        rw [h1]
      have hevs : evs = (settle_champion prev cd (cd.id?.getD "") tk ts σ []).2 := by
        rw [h1]
      subst hσ'; subst hevs
      refine ⟨hs2, hs3, hs4, hs5, ?_, Or.inl ⟨hs1, by simpa using hs6⟩⟩
      intro e he
      rcases hs7 e he with hmem | hkind
      · simp at hmem
      · exact hkind

/-- The identity first-blood step. -/
theorem fbStep_nil (fb : Bool) : fbStep fb fb [] := by
  constructor
  · simp
  · split <;> simp [killSeqOK]

/-- First-blood steps compose along event concatenation. -/
theorem fbStep_append {fb fb' fb'' : Bool} {ks₁ ks₂ : List GameEvent}
    (h₁ : fbStep fb fb' ks₁) (h₂ : fbStep fb' fb'' ks₂) :
    fbStep fb fb'' (ks₁ ++ ks₂) := by
  obtain ⟨e₁, s₁⟩ := h₁
  obtain ⟨e₂, s₂⟩ := h₂
  constructor
  · rw [e₂, e₁]
    cases ks₁ <;> cases ks₂ <;> simp [List.isEmpty]
  · by_cases hfb : fb = true
    · rw [if_pos hfb] at s₁ ⊢
      have hfb' : fb' = true := by rw [e₁, hfb]; simp
      rw [if_pos hfb'] at s₂
      intro e he
      rcases List.mem_append.1 he with hm | hm
      · exact s₁ e hm
      · exact s₂ e hm
    · rw [if_neg hfb] at s₁ ⊢
      cases ks₁ with
      | nil =>
        have hfb' : fb' = false := by
          rw [e₁]; simp [Bool.eq_false_iff.2 hfb]
        rw [hfb'] at s₂
        simpa using s₂
      | cons e rest =>
        have hfb' : fb' = true := by rw [e₁]; simp
        rw [if_pos hfb'] at s₂
        simp only [killSeqOK, Bool.and_eq_true, List.all_eq_true, beq_iff_eq] at s₁
        simp only [List.cons_append, killSeqOK, Bool.and_eq_true, List.all_eq_true,
          beq_iff_eq]
        refine ⟨s₁.1, ?_⟩
        intro e2 he2
        rcases List.mem_append.1 he2 with hm | hm
        · exact s₁.2 e2 hm
        · exact s₂ e2 hm

/-- One champion record is a valid first-blood step on its
kill-classification events. -/
theorem process_champion_fb {σ : DetectorState} {cd : ChampData} {tk : ℤ} {ts : ℚ}
    {σ' : DetectorState} {evs : List GameEvent}
    (h : process_champion σ cd tk ts = .ok (σ', evs)) :
    fbStep σ.first_blood_occurred σ'.first_blood_occurred (evs.filter killClass) := by
  rcases (process_champion_core h).2.2.2.2.2 with ⟨hfb, hks⟩ | ⟨hfb, d, hks⟩
  · rw [hks, hfb]
    exact fbStep_nil _
  · rw [hks, hfb]
    constructor
    · simp
    · by_cases hin : σ.first_blood_occurred = true
      · rw [if_pos hin]
        intro e he
        simp only [List.mem_singleton] at he
        subst he
        simp [hin]
      · rw [if_neg hin]
        simp only [Bool.not_eq_true] at hin
        simp [killSeqOK, hin]

/-- Recursion equation for the per-champion loop. -/
theorem process_champions_cons (σ : DetectorState) (cd : ChampData)
    (rest : List ChampData) (tk : ℤ) (ts : ℚ) :
    process_champions σ (cd :: rest) tk ts =
      (process_champion σ cd tk ts) >>= fun p =>
        (process_champions p.1 rest tk ts) >>= fun q =>
          Except.ok (q.1, p.2 ++ q.2) := rfl

/-- The whole champion stage: stored alive counts and the match-started
flag pass through, all events are per-champion kinds, and the stage is
one first-blood step. -/
theorem process_champions_core {l : List ChampData} {σ : DetectorState} {tk : ℤ}
    {ts : ℚ} {σ' : DetectorState} {evs : List GameEvent}
    (h : process_champions σ l tk ts = .ok (σ', evs)) :
    σ'.alive_blue = σ.alive_blue ∧ σ'.alive_red = σ.alive_red ∧
    σ'.match_started = σ.match_started ∧
    (∀ e ∈ evs, e.event_type ∈ champKinds) ∧
    fbStep σ.first_blood_occurred σ'.first_blood_occurred (evs.filter killClass) := by
  induction l generalizing σ evs with
  | nil =>
    unfold process_champions at h
    injection h with h1
    injection h1 with hσ hevs
    subst hσ; subst hevs
    exact ⟨rfl, rfl, rfl, by simp, fbStep_nil _⟩
  | cons cd rest ih =>
    rw [process_champions_cons] at h
    cases hp : process_champion σ cd tk ts <;> rw [hp] at h
    · rw [except_bind_error] at h; exact absurd h (by simp)
    next p =>
      rw [except_bind_ok] at h
      cases hq : process_champions p.1 rest tk ts <;> rw [hq] at h
      · rw [except_bind_error] at h; exact absurd h (by simp)
      next q =>
        rw [except_bind_ok] at h
        injection h with h1
        injection h1 with hσ hevs
        subst hσ; subst hevs
        obtain ⟨ha1, ha2, ha3, hap, ha4, ha5⟩ := process_champion_core (hp.trans (by rfl))
        obtain ⟨hb1, hb2, hb3, hb4, hb5⟩ := ih (hq.trans (by rfl))
        refine ⟨hb1.trans ha1, hb2.trans ha2, hb3.trans ha3, ?_, ?_⟩
        · intro e he
          rcases List.mem_append.1 he with hm | hm
          · exact ha4 e hm
          · exact hb4 e hm
        · rw [List.filter_append]
          exact fbStep_append (process_champion_fb (hp.trans (by rfl))) hb5

/-- The match-start section never changes the champion map, the flag or
the stored alive counts. -/
theorem match_start_step_frame (σ : DetectorState) (s : Snapshot) (tk : ℤ) (ts : ℚ) :
    (match_start_step σ s tk ts).1.champion_states = σ.champion_states ∧
    (match_start_step σ s tk ts).1.first_blood_occurred = σ.first_blood_occurred ∧
    (match_start_step σ s tk ts).1.alive_blue = σ.alive_blue ∧
    (match_start_step σ s tk ts).1.alive_red = σ.alive_red := by
  unfold match_start_step
  split <;> exact ⟨rfl, rfl, rfl, rfl⟩

/-- `check_ace` never changes the first-blood flag. -/
theorem check_ace_fb (σ : DetectorState) (tk : ℤ) (ts : ℚ) :
    (check_ace σ tk ts).1.first_blood_occurred = σ.first_blood_occurred := rfl

/-- A list whose events all have one non-kill type has no
kill-classification events. -/
theorem filter_killClass_nil {l : List GameEvent} {t : EventType}
    (hl : ∀ e ∈ l, e.event_type = t)
    (h1 : t ≠ EventType.firstBlood) (h2 : t ≠ EventType.championKill) :
    l.filter killClass = [] := by
  rw [List.filter_eq_nil_iff]
  intro e he
  simp only [killClass, hl e he, Bool.or_eq_true, beq_iff_eq]
  exact fun h => h.elim h1 h2

/-- A count of events of type `t` is zero on a list avoiding `t`. -/
theorem countP_eq_zero_of_type {l : List GameEvent} {p : GameEvent → Bool}
    {t : EventType} (himp : ∀ e, p e = true → e.event_type = t)
    (hl : ∀ e ∈ l, e.event_type ≠ t) : l.countP p = 0 := by
  rw [List.countP_eq_zero]
  intro e he hp
  exact hl e he (himp e hp)

/-- An event whose type is in `kinds` cannot have a type outside it. -/
theorem kinds_ne {e : GameEvent} {kinds : List EventType}
    (hk : e.event_type ∈ kinds) {t : EventType} (ht : t ∉ kinds) :
    e.event_type ≠ t := fun h => ht (h ▸ hk)

/-- One `detect` call is a first-blood step on its kill-classification
events. -/
theorem detect_fb {σ : DetectorState} {s : Snapshot} {σ' : DetectorState}
    {evs : List GameEvent} (h : detect σ s = .ok (σ', evs)) :
    fbStep σ.first_blood_occurred σ'.first_blood_occurred (evs.filter killClass) := by
  obtain ⟨σ₂, champEvs, hp, hσ, hevs⟩ := detect_ok_elim h
  subst hσ; subst hevs
  obtain ⟨_, _, _, _, hfb⟩ := process_champions_core hp
  rw [(match_start_step_frame σ s (s.tick?.getD 0) (s.match_time?.getD 0)).2.1] at hfb
  have hstart : (match_start_step σ s (s.tick?.getD 0) (s.match_time?.getD 0)).2.filter
      killClass = [] :=
    filter_killClass_nil (match_start_step_kinds σ s _ _) (by simp) (by simp)
  have hace : (check_ace σ₂ (s.tick?.getD 0) (s.match_time?.getD 0)).2.filter
      killClass = [] :=
    filter_killClass_nil (check_ace_kinds σ₂ _ _) (by simp) (by simp)
  have hstruct : (process_structures s (s.tick?.getD 0) (s.match_time?.getD 0)).filter
      killClass = [] :=
    filter_killClass_nil (process_structures_kinds s _ _) (by simp) (by simp)
  have hend : (match_end_events s (s.tick?.getD 0) (s.match_time?.getD 0)).filter
      killClass = [] := by
    rw [List.filter_eq_nil_iff]
    intro e he
    rw [match_end_events_shape s _ _ e he]
    simp [killClass]
  simp only [List.filter_append, hstart, hace, hstruct, hend, List.nil_append,
    List.append_nil]
  exact hfb

/-- Recursion equation for `runDetect`. -/
theorem runDetect_cons (σ : DetectorState) (s : Snapshot) (rest : List Snapshot) :
    runDetect σ (s :: rest) =
      (detect σ s) >>= fun p =>
        (runDetect p.1 rest) >>= fun q => Except.ok (q.1, p.2 ++ q.2) := rfl

/-- A whole run is a first-blood step on its kill-classification events. -/
theorem runDetect_fb {snaps : List Snapshot} {σ : DetectorState}
    {σ' : DetectorState} {evs : List GameEvent}
    (h : runDetect σ snaps = .ok (σ', evs)) :
    fbStep σ.first_blood_occurred σ'.first_blood_occurred (evs.filter killClass) := by
  induction snaps generalizing σ evs with
  | nil =>
    unfold runDetect at h
    injection h with h1
    injection h1 with hσ hevs
    subst hσ; subst hevs
    exact fbStep_nil _
  | cons s rest ih =>
    rw [runDetect_cons] at h
    cases hp : detect σ s <;> rw [hp] at h
    · rw [except_bind_error] at h; exact absurd h (by simp)
    next p =>
      rw [except_bind_ok] at h
      cases hq : runDetect p.1 rest <;> rw [hq] at h
      · rw [except_bind_error] at h; exact absurd h (by simp)
      next q =>
        rw [except_bind_ok] at h
        injection h with h1
        injection h1 with hσ hevs
        subst hσ; subst hevs
        rw [List.filter_append]
        exact fbStep_append (detect_fb (hp.trans (by rfl))) (ih (hq.trans (by rfl)))

/-- A well-shaped kill sequence has at most one FIRST_BLOOD. -/
theorem killSeqOK_count {ks : List GameEvent} (h : killSeqOK ks = true) :
    ks.countP (fun e => e.event_type == EventType.firstBlood) ≤ 1 := by
  cases ks with
  | nil => simp
  | cons e rest =>
    simp only [killSeqOK, Bool.and_eq_true, List.all_eq_true, beq_iff_eq] at h
    rw [List.countP_cons]
    have hz : rest.countP (fun e => e.event_type == EventType.firstBlood) = 0 :=
      countP_eq_zero_of_type (fun e hp => by simpa using hp)
        (fun e2 he2 => by rw [h.2 e2 he2]; simp)
    rw [hz]
    split <;> simp

/-! ### Claim theorems -/

/-- C3: across all snapshots processed by one detector instance,
FIRST_BLOOD is emitted at most once and only as the very first
kill-classification event (so it fires exactly on the first death edge
observed globally, when any death edge occurs at all); every later death
edge emits CHAMPION_KILL; the first-blood flag ends up set exactly when
a kill event was emitted, and once set it is never cleared by any
further call. -/
theorem c3_first_blood_once (snaps : List Snapshot) (σ' : DetectorState)
    (evs : List GameEvent) (h : runDetect initState snaps = .ok (σ', evs)) :
    killSeqOK (evs.filter killClass) = true ∧
    evs.countP (fun e => e.event_type == EventType.firstBlood) ≤ 1 ∧
    σ'.first_blood_occurred = !(evs.filter killClass).isEmpty ∧
    (∀ σa (s : Snapshot) σb evs₂, σa.first_blood_occurred = true →
      detect σa s = .ok (σb, evs₂) →
      σb.first_blood_occurred = true ∧
      ∀ e ∈ evs₂, killClass e = true → e.event_type = EventType.championKill) := by
  obtain ⟨hflag, hshape⟩ := runDetect_fb h
  have hinit : initState.first_blood_occurred = false := rfl
  rw [hinit] at hflag hshape
  rw [if_neg (by simp)] at hshape
  refine ⟨hshape, ?_, by simpa using hflag, ?_⟩
  · have hk := killSeqOK_count hshape
    have : evs.countP (fun e => e.event_type == EventType.firstBlood) =
        (evs.filter killClass).countP (fun e => e.event_type == EventType.firstBlood) := by
      rw [List.countP_filter]
      refine List.countP_congr ?_
      intro e _
      by_cases hfb : e.event_type = EventType.firstBlood <;> simp [hfb, killClass]
    rw [this]
    exact hk
  · intro σa s σb evs₂ ha hdet
    obtain ⟨hflag₂, hshape₂⟩ := detect_fb hdet
    rw [ha] at hflag₂ hshape₂
    rw [if_pos rfl] at hshape₂
    refine ⟨by simpa using hflag₂, ?_⟩
    intro e he hkc
    exact hshape₂ e (List.mem_filter.2 ⟨he, hkc⟩)

/-- Witness for C3 on a concrete three-snapshot run with two deaths. -/
theorem c3_first_blood_once_witness :
    killSeqOK (demoPair.2.filter killClass) = true ∧
    demoPair.2.countP (fun e => e.event_type == EventType.firstBlood) ≤ 1 ∧
    demoPair.1.first_blood_occurred = !(demoPair.2.filter killClass).isEmpty :=
  (fun H => ⟨H.1, H.2.1, H.2.2.1⟩)
    (c3_first_blood_once demoRun demoPair.1 demoPair.2 (by decide))

/-- C1 (amended): MATCH_END is level-triggered, not edge-triggered —
every `detect` call on a snapshot whose status is "ended" emits exactly
one MATCH_END, with winner taken from the snapshot and duration equal to
the snapshot's match time, and no call on any other status emits one. -/
theorem c1_match_end_level_triggered (σ : DetectorState) (s : Snapshot)
    (σ' : DetectorState) (evs : List GameEvent) (h : detect σ s = .ok (σ', evs)) :
    evs.countP (fun e => e.event_type == EventType.matchEnd) =
      (if s.status? = some "ended" then 1 else 0) ∧
    ∀ e ∈ evs, e.event_type = EventType.matchEnd →
      e = GameEvent.mk EventType.matchEnd (s.match_time?.getD 0) (s.tick?.getD 0)
            (EventData.endData s.winner? (s.match_time?.getD 0)) := by
  obtain ⟨σ₂, champEvs, hp, hσ, hevs⟩ := detect_ok_elim h
  subst hσ; subst hevs
  obtain ⟨_, _, _, hkinds, _⟩ := process_champions_core hp
  have hz1 : (match_start_step σ s (s.tick?.getD 0) (s.match_time?.getD 0)).2.countP
      (fun e => e.event_type == EventType.matchEnd) = 0 :=
    countP_eq_zero_of_type (fun e hp2 => by simpa using hp2)
      (fun e he => by rw [match_start_step_kinds σ s _ _ e he]; simp)
  have hz2 : champEvs.countP (fun e => e.event_type == EventType.matchEnd) = 0 :=
    countP_eq_zero_of_type (fun e hp2 => by simpa using hp2)
      (fun e he => kinds_ne (hkinds e he) (by simp [champKinds]))
  have hz3 : (check_ace σ₂ (s.tick?.getD 0) (s.match_time?.getD 0)).2.countP
      (fun e => e.event_type == EventType.matchEnd) = 0 :=
    countP_eq_zero_of_type (fun e hp2 => by simpa using hp2)
      (fun e he => by rw [check_ace_kinds σ₂ _ _ e he]; simp)
  have hz4 : (process_structures s (s.tick?.getD 0) (s.match_time?.getD 0)).countP
      (fun e => e.event_type == EventType.matchEnd) = 0 :=
    countP_eq_zero_of_type (fun e hp2 => by simpa using hp2)
      (fun e he => by rw [process_structures_kinds s _ _ e he]; simp)
  constructor
  · simp only [List.countP_append, hz1, hz2, hz3, hz4,
      match_end_events_count s (s.tick?.getD 0) (s.match_time?.getD 0)]
    simp
  · intro e he het
    simp only [List.mem_append] at he
    rcases he with ((((he | he) | he) | he) | he)
    · exact absurd het (by rw [match_start_step_kinds σ s _ _ e he]; simp)
    · exact absurd het (kinds_ne (hkinds e he) (by simp [champKinds]))
    · exact absurd het (by rw [check_ace_kinds σ₂ _ _ e he]; simp)
    · exact absurd het (by rw [process_structures_kinds s _ _ e he]; simp)
    · exact match_end_events_shape s _ _ e he

/-- Counterexample to C1 as stated: feeding two consecutive snapshots
that are both already in status "ended" (no transition on the second)
still emits a MATCH_END on the second call. -/
theorem c1_counterexample :
    ((detect initState endedSnap).bind fun r =>
      (detect r.1 endedSnap).map fun r2 =>
        r2.2.countP fun e => e.event_type == EventType.matchEnd) = Except.ok 1 := by
  decide

/-- Witness for the amended C1 on a concrete ended snapshot. -/
theorem c1_match_end_level_triggered_witness :
    c1Pair.2.countP (fun e => e.event_type == EventType.matchEnd) =
      (if endedSnap.status? = some "ended" then 1 else 0) :=
  (c1_match_end_level_triggered initState endedSnap c1Pair.1 c1Pair.2 (by decide)).1

/-- Exact ACE counts of the ace section: one per team whose stored count
was positive and whose current count is zero, with the wiped team and
its opponent in the payload. -/
theorem check_ace_count (σ : DetectorState) (tk : ℤ) (ts : ℚ) :
    ((check_ace σ tk ts).2.countP (fun e =>
        e == GameEvent.mk EventType.ace ts tk (EventData.aceData "blue" "red")) =
      if 0 < σ.alive_blue ∧ aliveOnTeam σ.champion_states "blue" = 0 then 1 else 0) ∧
    ((check_ace σ tk ts).2.countP (fun e =>
        e == GameEvent.mk EventType.ace ts tk (EventData.aceData "red" "blue")) =
      if 0 < σ.alive_red ∧ aliveOnTeam σ.champion_states "red" = 0 then 1 else 0) ∧
    ((check_ace σ tk ts).2.countP (fun e => e.event_type == EventType.ace) =
      (if 0 < σ.alive_blue ∧ aliveOnTeam σ.champion_states "blue" = 0 then 1 else 0) +
      (if 0 < σ.alive_red ∧ aliveOnTeam σ.champion_states "red" = 0 then 1 else 0)) := by
  simp only [check_ace]
  split_ifs <;>
    simp_all [List.countP_append, List.countP_cons, beq_iff_eq]

/-- Exact NEXUS_LOW counts of the structures section: one per team whose
nexus health (default 5000 when the field is absent) lies in (0, 1000],
carrying the team and that health in the payload. -/
theorem process_structures_count (s : Snapshot) (tk : ℤ) (ts : ℚ) :
    ((process_structures s tk ts).countP (fun e =>
        e == GameEvent.mk EventType.nexusLow ts tk
          (EventData.nexusData "blue" (s.blue_nexus_health?.getD 5000))) =
      if s.blue_nexus_health?.getD 5000 ≤ 1000 ∧ 0 < s.blue_nexus_health?.getD 5000
      then 1 else 0) ∧
    ((process_structures s tk ts).countP (fun e =>
        e == GameEvent.mk EventType.nexusLow ts tk
          (EventData.nexusData "red" (s.red_nexus_health?.getD 5000))) =
      if s.red_nexus_health?.getD 5000 ≤ 1000 ∧ 0 < s.red_nexus_health?.getD 5000
      then 1 else 0) ∧
    ((process_structures s tk ts).countP (fun e => e.event_type == EventType.nexusLow) =
      (if s.blue_nexus_health?.getD 5000 ≤ 1000 ∧ 0 < s.blue_nexus_health?.getD 5000
       then 1 else 0) +
      (if s.red_nexus_health?.getD 5000 ≤ 1000 ∧ 0 < s.red_nexus_health?.getD 5000
       then 1 else 0)) := by
  simp only [process_structures]
  split_ifs <;>
    simp_all [List.countP_append, List.countP_cons, beq_iff_eq]

/-- C5: per `detect` call and per team, ACE is emitted exactly when the
stored alive count was positive and the freshly computed count is zero,
with the wiped team and its opponent named in the payload; there is at
most one ACE per team per call, and the stored counts are overwritten
with the current counts on every call regardless of whether ACE fired. -/
theorem c5_ace_transitions (σ : DetectorState) (s : Snapshot) (σ' : DetectorState)
    (evs : List GameEvent) (h : detect σ s = .ok (σ', evs)) :
    σ'.alive_blue = aliveOnTeam σ'.champion_states "blue" ∧
    σ'.alive_red = aliveOnTeam σ'.champion_states "red" ∧
    (evs.countP (fun e =>
        e == GameEvent.mk EventType.ace (s.match_time?.getD 0) (s.tick?.getD 0)
          (EventData.aceData "blue" "red")) =
      if 0 < σ.alive_blue ∧ aliveOnTeam σ'.champion_states "blue" = 0 then 1 else 0) ∧
    (evs.countP (fun e =>
        e == GameEvent.mk EventType.ace (s.match_time?.getD 0) (s.tick?.getD 0)
          (EventData.aceData "red" "blue")) =
      if 0 < σ.alive_red ∧ aliveOnTeam σ'.champion_states "red" = 0 then 1 else 0) ∧
    (evs.countP (fun e => e.event_type == EventType.ace) =
      (if 0 < σ.alive_blue ∧ aliveOnTeam σ'.champion_states "blue" = 0 then 1 else 0) +
      (if 0 < σ.alive_red ∧ aliveOnTeam σ'.champion_states "red" = 0 then 1 else 0)) := by
  obtain ⟨σ₂, champEvs, hp, hσ, hevs⟩ := detect_ok_elim h
  obtain ⟨hb, hr, _, hkinds, _⟩ := process_champions_core hp
  have hmb := (match_start_step_frame σ s (s.tick?.getD 0) (s.match_time?.getD 0)).2.2.1
  have hmr := (match_start_step_frame σ s (s.tick?.getD 0) (s.match_time?.getD 0)).2.2.2
  have hstates : σ'.champion_states = σ₂.champion_states := by
    rw [hσ]; rfl
  have hblue : σ'.alive_blue = aliveOnTeam σ₂.champion_states "blue" := by rw [hσ]; rfl
  have hred : σ'.alive_red = aliveOnTeam σ₂.champion_states "red" := by rw [hσ]; rfl
  have hsb : 0 < σ₂.alive_blue ↔ 0 < σ.alive_blue := by rw [hb, hmb]
  have hsr : 0 < σ₂.alive_red ↔ 0 < σ.alive_red := by rw [hr, hmr]
  have haceB := (check_ace_count σ₂ (s.tick?.getD 0) (s.match_time?.getD 0)).1
  have haceR := (check_ace_count σ₂ (s.tick?.getD 0) (s.match_time?.getD 0)).2.1
  have haceT := (check_ace_count σ₂ (s.tick?.getD 0) (s.match_time?.getD 0)).2.2
  have hzace : ∀ p : GameEvent → Bool, (∀ e, p e = true → e.event_type = EventType.ace) →
      (match_start_step σ s (s.tick?.getD 0) (s.match_time?.getD 0)).2.countP p = 0 ∧
      champEvs.countP p = 0 ∧
      (process_structures s (s.tick?.getD 0) (s.match_time?.getD 0)).countP p = 0 ∧
      (match_end_events s (s.tick?.getD 0) (s.match_time?.getD 0)).countP p = 0 := by
    intro p hip
    refine ⟨countP_eq_zero_of_type hip
        (fun e he => by rw [match_start_step_kinds σ s _ _ e he]; simp),
      countP_eq_zero_of_type hip
        (fun e he => kinds_ne (hkinds e he) (by simp [champKinds])),
      countP_eq_zero_of_type hip
        (fun e he => by rw [process_structures_kinds s _ _ e he]; simp),
      countP_eq_zero_of_type hip
        (fun e he => by rw [match_end_events_shape s _ _ e he]; simp)⟩
  have hipB : ∀ e : GameEvent, (e == GameEvent.mk EventType.ace (s.match_time?.getD 0)
      (s.tick?.getD 0) (EventData.aceData "blue" "red")) = true →
      e.event_type = EventType.ace := by
    intro e he; rw [beq_iff_eq] at he; rw [he]
  have hipR : ∀ e : GameEvent, (e == GameEvent.mk EventType.ace (s.match_time?.getD 0)
      (s.tick?.getD 0) (EventData.aceData "red" "blue")) = true →
      e.event_type = EventType.ace := by
    intro e he; rw [beq_iff_eq] at he; rw [he]
  have hipT : ∀ e : GameEvent, (e.event_type == EventType.ace) = true →
      e.event_type = EventType.ace := by
    intro e he; rwa [beq_iff_eq] at he
  obtain ⟨z1B, z2B, z3B, z4B⟩ := hzace _ hipB
  obtain ⟨z1R, z2R, z3R, z4R⟩ := hzace _ hipR
  obtain ⟨z1T, z2T, z3T, z4T⟩ := hzace _ hipT
  subst hevs
  refine ⟨hblue.trans (by rw [hstates]), hred.trans (by rw [hstates]), ?_, ?_, ?_⟩
  · simp only [List.countP_append, z1B, z2B, z3B, z4B, haceB, hsb.symm]
    rw [hb, hmb, hstates]
    simp
  · simp only [List.countP_append, z1R, z2R, z3R, z4R, haceR, hsr.symm]
    rw [hr, hmr, hstates]
    simp
  · simp only [List.countP_append, z1T, z2T, z3T, z4T, haceT]
    rw [hb, hmb, hr, hmr, hstates]
    simp

/-- Witness for C5 on a concrete `detect` call. -/
theorem c5_ace_transitions_witness :
    c5Pair.1.alive_blue = aliveOnTeam c5Pair.1.champion_states "blue" ∧
    c5Pair.1.alive_red = aliveOnTeam c5Pair.1.champion_states "red" ∧
    c5Pair.2.countP (fun e => e.event_type == EventType.ace) =
      (if 0 < initState.alive_blue ∧ aliveOnTeam c5Pair.1.champion_states "blue" = 0
       then 1 else 0) +
      (if 0 < initState.alive_red ∧ aliveOnTeam c5Pair.1.champion_states "red" = 0
       then 1 else 0) :=
  (fun H => ⟨H.1, H.2.1, H.2.2.2.2⟩)
    (c5_ace_transitions initState demoSnap0 c5Pair.1 c5Pair.2 (by decide))

/-- C8: per `detect` call and per team, NEXUS_LOW is emitted exactly
when that team's nexus health (default 5000 when absent) lies in
(0, 1000], once per qualifying team, with team and health in the
payload; the condition reads only the snapshot, never detector state, so
it repeats on every consecutive qualifying call. -/
theorem c8_nexus_low (σ : DetectorState) (s : Snapshot) (σ' : DetectorState)
    (evs : List GameEvent) (h : detect σ s = .ok (σ', evs)) :
    (evs.countP (fun e =>
        e == GameEvent.mk EventType.nexusLow (s.match_time?.getD 0) (s.tick?.getD 0)
          (EventData.nexusData "blue" (s.blue_nexus_health?.getD 5000))) =
      if s.blue_nexus_health?.getD 5000 ≤ 1000 ∧ 0 < s.blue_nexus_health?.getD 5000
      then 1 else 0) ∧
    (evs.countP (fun e =>
        e == GameEvent.mk EventType.nexusLow (s.match_time?.getD 0) (s.tick?.getD 0)
          (EventData.nexusData "red" (s.red_nexus_health?.getD 5000))) =
      if s.red_nexus_health?.getD 5000 ≤ 1000 ∧ 0 < s.red_nexus_health?.getD 5000
      then 1 else 0) ∧
    (evs.countP (fun e => e.event_type == EventType.nexusLow) =
      (if s.blue_nexus_health?.getD 5000 ≤ 1000 ∧ 0 < s.blue_nexus_health?.getD 5000
       then 1 else 0) +
      (if s.red_nexus_health?.getD 5000 ≤ 1000 ∧ 0 < s.red_nexus_health?.getD 5000
       then 1 else 0)) := by
  obtain ⟨σ₂, champEvs, hp, hσ, hevs⟩ := detect_ok_elim h
  obtain ⟨_, _, _, hkinds, _⟩ := process_champions_core hp
  have hznex : ∀ p : GameEvent → Bool,
      (∀ e, p e = true → e.event_type = EventType.nexusLow) →
      (match_start_step σ s (s.tick?.getD 0) (s.match_time?.getD 0)).2.countP p = 0 ∧
      champEvs.countP p = 0 ∧
      (check_ace σ₂ (s.tick?.getD 0) (s.match_time?.getD 0)).2.countP p = 0 ∧
      (match_end_events s (s.tick?.getD 0) (s.match_time?.getD 0)).countP p = 0 := by
    intro p hip
    refine ⟨countP_eq_zero_of_type hip
        (fun e he => by rw [match_start_step_kinds σ s _ _ e he]; simp),
      countP_eq_zero_of_type hip
        (fun e he => kinds_ne (hkinds e he) (by simp [champKinds])),
      countP_eq_zero_of_type hip
        (fun e he => by rw [check_ace_kinds σ₂ _ _ e he]; simp),
      countP_eq_zero_of_type hip
        (fun e he => by rw [match_end_events_shape s _ _ e he]; simp)⟩
  have hipB : ∀ e : GameEvent, (e == GameEvent.mk EventType.nexusLow
      (s.match_time?.getD 0) (s.tick?.getD 0)
      (EventData.nexusData "blue" (s.blue_nexus_health?.getD 5000))) = true →
      e.event_type = EventType.nexusLow := by
    intro e he; rw [beq_iff_eq] at he; rw [he]
  have hipR : ∀ e : GameEvent, (e == GameEvent.mk EventType.nexusLow
      (s.match_time?.getD 0) (s.tick?.getD 0)
      (EventData.nexusData "red" (s.red_nexus_health?.getD 5000))) = true →
      e.event_type = EventType.nexusLow := by
    intro e he; rw [beq_iff_eq] at he; rw [he]
  have hipT : ∀ e : GameEvent, (e.event_type == EventType.nexusLow) = true →
      e.event_type = EventType.nexusLow := by
    intro e he; rwa [beq_iff_eq] at he
  obtain ⟨z1B, z2B, z3B, z4B⟩ := hznex _ hipB
  obtain ⟨z1R, z2R, z3R, z4R⟩ := hznex _ hipR
  obtain ⟨z1T, z2T, z3T, z4T⟩ := hznex _ hipT
  have hnB := (process_structures_count s (s.tick?.getD 0) (s.match_time?.getD 0)).1
  have hnR := (process_structures_count s (s.tick?.getD 0) (s.match_time?.getD 0)).2.1
  have hnT := (process_structures_count s (s.tick?.getD 0) (s.match_time?.getD 0)).2.2
  subst hevs
  refine ⟨?_, ?_, ?_⟩
  · simp only [List.countP_append, z1B, z2B, z3B, z4B, hnB]; simp
  · simp only [List.countP_append, z1R, z2R, z3R, z4R, hnR]; simp
  · simp only [List.countP_append, z1T, z2T, z3T, z4T, hnT]; simp

/-- Witness for C8 on a concrete low-nexus snapshot. -/
theorem c8_nexus_low_witness :
    c8Pair.2.countP (fun e => e.event_type == EventType.nexusLow) =
      (if lowNexusSnap.blue_nexus_health?.getD 5000 ≤ 1000 ∧
          0 < lowNexusSnap.blue_nexus_health?.getD 5000 then 1 else 0) +
      (if lowNexusSnap.red_nexus_health?.getD 5000 ≤ 1000 ∧
          0 < lowNexusSnap.red_nexus_health?.getD 5000 then 1 else 0) :=
  (c8_nexus_low initState lowNexusSnap c8Pair.1 c8Pair.2 (by decide)).2.2

/-- In the multi-kill scenario the nearest-enemy heuristic always
resolves to the lone red killer, whatever its tracked streak/window. -/
theorem c2_resolve (cid : String) (streak : ℕ) (kills : List ℚ) (fb : Bool) :
    find_likely_killer (c2Victim cid) (c2State streak kills fb).champion_states =
      .ok (some (c2Killer streak kills)) := by
  simp [find_likely_killer, killer_fold, sq_dist, getKey, c2State, c2Killer, c2Victim,
    mkChamp, initState, except_bind_ok, except_map_ok]

/-- The heuristic also resolves the killer for the streaking victim of
the shutdown scenario. -/
theorem c4_resolve :
    find_likely_killer c4Victim (c2State 0 [] false).champion_states =
      .ok (some (c2Killer 0 [])) := by
  simp [find_likely_killer, killer_fold, sq_dist, getKey, c2State, c2Killer, c2Victim,
    c4Victim, mkChamp, initState, except_bind_ok, except_map_ok]

/-- C4: on a death edge, SHUTDOWN is emitted exactly once when the
killer heuristic resolved and the victim's kill streak read at death is
at least 3, and never otherwise — in particular never with an unresolved
killer; when it fires, its payload names the victim, the killer and the
victim's streak length. -/
theorem c4_shutdown (σ : DetectorState) (v : ChampionState) (tk : ℤ) (ts : ℚ)
    (k? : Option ChampionState)
    (hk : find_likely_killer v σ.champion_states = .ok k?) :
    on_champion_death σ v tk ts = .ok (death_result σ v tk ts k?) ∧
    ((death_result σ v tk ts k?).2.countP
        (fun e => e.event_type == EventType.shutdown) =
      if killerResolved (find_likely_killer v σ.champion_states) = true ∧
          3 ≤ v.kill_streak then 1 else 0) ∧
    (∀ k, k? = some k →
      ∀ e ∈ (death_result σ v tk ts k?).2, e.event_type = EventType.shutdown →
        e.data = EventData.shutdownData v.champion k.champion v.kill_streak) := by
  refine ⟨by unfold on_champion_death; rw [hk]; rfl, ?_, ?_⟩
  · rw [hk]
    unfold death_result
    cases k? <;> by_cases hfb : σ.first_blood_occurred = false <;>
      simp_all [killerResolved, List.countP_cons, List.countP_append] <;>
      split_ifs <;> simp_all
  · intro k hkk e he het
    subst hkk
    unfold death_result at he
    by_cases hfb : σ.first_blood_occurred = false <;>
      simp only [hfb, if_true, if_false, Bool.false_eq_true, reduceIte] at he <;>
      rcases List.mem_cons.1 he with rfl | hm <;>
      first
      | simp at het
      | (rcases List.mem_append.1 hm with hm2 | hm2 <;>
         · split_ifs at hm2 <;> simp_all)

/-- Witness for C4 in the shutdown scenario: streaking victim, killer
resolved, SHUTDOWN fires exactly once. -/
theorem c4_shutdown_witness :
    (death_result (c2State 0 [] false) c4Victim 1 5 (some (c2Killer 0 []))).2.countP
        (fun e => e.event_type == EventType.shutdown) =
      if killerResolved (find_likely_killer c4Victim
            (c2State 0 [] false).champion_states) = true ∧
          3 ≤ c4Victim.kill_streak then 1 else 0 :=
  (c4_shutdown (c2State 0 [] false) c4Victim 1 5 (some (c2Killer 0 []))
    c4_resolve).2.1

/-- C10: a death edge on which no killer resolves emits exactly one kill
event (FIRST_BLOOD or CHAMPION_KILL by the first-blood flag) with
killer_id None, killer "Unknown" and killer_team None, leaves every
champion's kill_streak and recent-kill window untouched (the champion
map is unchanged), and is accompanied by no DOUBLE_KILL, TRIPLE_KILL,
MULTI_KILL or SHUTDOWN event. -/
theorem c10_unresolved_killer (σ : DetectorState) (v : ChampionState)
    (tk : ℤ) (ts : ℚ)
    (hk : find_likely_killer v σ.champion_states = .ok none) :
    on_champion_death σ v tk ts = .ok ({σ with first_blood_occurred := true},
      [GameEvent.mk
        (if σ.first_blood_occurred then EventType.championKill
         else EventType.firstBlood) ts tk
        (EventData.kill v.id v.champion v.team none "Unknown" none)]) := by
  unfold on_champion_death
  rw [hk, except_map_ok]
  unfold death_result
  by_cases hfb : σ.first_blood_occurred = false <;> simp [hfb]
  · cases σ
    simp_all

/-- Witness for C10: one tracked blue champion, no enemy, so the death
edge produces the unresolved-killer kill event. -/
theorem c10_unresolved_killer_witness :
    on_champion_death c10State (c2Victim "v1") 7 3 =
      .ok ({c10State with first_blood_occurred := true},
        [GameEvent.mk
          (if c10State.first_blood_occurred then EventType.championKill
           else EventType.firstBlood) 3 7
          (EventData.kill (c2Victim "v1").id (c2Victim "v1").champion
            (c2Victim "v1").team none "Unknown" none)]) :=
  c10_unresolved_killer c10State (c2Victim "v1") 7 3 (by decide)

/-- Shape of one fan-out pass: every member is attempted in order, the
open ones are delivered, the closed ones are collected as disconnected. -/
theorem broadcastPass_shape (members : List Spectator) :
    (broadcastPass members).attempted = members.map Spectator.sid ∧
    (broadcastPass members).delivered =
      (members.filter fun m => !m.closed).map Spectator.sid ∧
    (broadcastPass members).disconnected =
      (members.filter fun m => m.closed).map Spectator.sid := by
  induction members with
  | nil => exact ⟨rfl, rfl, rfl⟩
  | cons m rest ih =>
    obtain ⟨h1, h2, h3⟩ := ih
    unfold broadcastPass
    cases hm : m.closed <;>
      simp [hm, h1, h2, h3, List.filter_cons]

/-- Open and closed members partition the member count. -/
theorem filter_open_length (l : List Spectator) :
    (l.filter fun m => !m.closed).length + l.countP (fun m => m.closed) = l.length := by
  induction l with
  | nil => rfl
  | cons m rest ih =>
    cases hm : m.closed <;>
      simp [List.filter_cons, List.countP_cons, hm] <;> omega

/-- C7: broadcasting to N members of which exactly one is closed
attempts delivery to every member in that call, succeeds for N−1 of
them, removes exactly the closed member and only after the full pass
(the attempt list covers all N members), and a subsequent broadcast
attempts and delivers to exactly N−1 members. -/
theorem c7_broadcast_prune (members : List Spectator)
    (hn : (members.map Spectator.sid).Nodup)
    (hc : members.countP (fun m => m.closed) = 1) :
    (broadcast_commentary members).1.attempted = members.map Spectator.sid ∧
    (broadcast_commentary members).1.delivered.length = members.length - 1 ∧
    (broadcast_commentary members).2 = members.filter (fun m => !m.closed) ∧
    (broadcast_commentary members).2.length = members.length - 1 ∧
    (broadcast_commentary (broadcast_commentary members).2).1.attempted.length =
      members.length - 1 ∧
    (broadcast_commentary (broadcast_commentary members).2).1.delivered.length =
      members.length - 1 := by
  obtain ⟨h1, h2, h3⟩ := broadcastPass_shape members
  have hinj := List.inj_on_of_nodup_map hn
  have hopen : (members.filter fun m => !m.closed).length = members.length - 1 := by
    have := filter_open_length members
    omega
  have hrem : (broadcast_commentary members).2 =
      members.filter (fun m => !m.closed) := by
    unfold broadcast_commentary
    simp only [h3]
    refine List.filter_congr ?_
    intro m hm
    have hmem_iff : m.sid ∈ (members.filter fun m => m.closed).map Spectator.sid ↔
        m.closed = true := by
      constructor
      · intro hx
        obtain ⟨c, hcmem, hcsid⟩ := List.mem_map.1 hx
        have hcf := List.mem_filter.1 hcmem
        have hceq : c = m := hinj hcf.1 hm hcsid
        rw [← hceq]
        simpa using hcf.2
      · intro hcl
        exact List.mem_map.2 ⟨m, List.mem_filter.2 ⟨hm, by simpa using hcl⟩, rfl⟩
    have hcont : ((members.filter fun m => m.closed).map Spectator.sid).contains m.sid =
        m.closed := by
      cases hmc : m.closed
      · rw [← Bool.not_eq_true]
        rw [List.elem_iff]
        rw [hmem_iff]
        simp [hmc]
      · rw [List.elem_iff, hmem_iff]
        exact hmc
    rw [hcont]
  have hrem_open : ∀ m ∈ (broadcast_commentary members).2, m.closed = false := by
    intro m hm
    rw [hrem] at hm
    have := List.mem_filter.1 hm
    simpa using this.2
  obtain ⟨g1, g2, _⟩ := broadcastPass_shape (broadcast_commentary members).2
  have hfilter2 : ((broadcast_commentary members).2.filter fun m => !m.closed) =
      (broadcast_commentary members).2 := by
    refine List.filter_eq_self.2 ?_
    intro m hm
    simp [hrem_open m hm]
  refine ⟨h1, ?_, hrem, by rw [hrem]; exact hopen, ?_, ?_⟩
  · show (broadcastPass members).delivered.length = _
    rw [h2, List.length_map]
    exact hopen
  · show (broadcastPass (broadcast_commentary members).2).attempted.length = _
    rw [g1, List.length_map, hrem, hopen]
  · show (broadcastPass (broadcast_commentary members).2).delivered.length = _
    rw [g2, hfilter2, List.length_map, hrem, hopen]

/-- Witness for C7: three members, the middle one closed. -/
theorem c7_broadcast_prune_witness :
    (broadcast_commentary c7Members).1.attempted = c7Members.map Spectator.sid ∧
    (broadcast_commentary c7Members).1.delivered.length = c7Members.length - 1 ∧
    (broadcast_commentary c7Members).2 = c7Members.filter (fun m => !m.closed) ∧
    (broadcast_commentary c7Members).2.length = c7Members.length - 1 ∧
    (broadcast_commentary (broadcast_commentary c7Members).2).1.attempted.length =
      c7Members.length - 1 ∧
    (broadcast_commentary (broadcast_commentary c7Members).2).1.delivered.length =
      c7Members.length - 1 :=
  c7_broadcast_prune c7Members (by decide) (by decide)

/-- `str.format` raises `KeyError` exactly when some placeholder of the
template names a field absent from the payload dict. -/
theorem formatTemplate_missing {t : List Piece} {data : List (String × Value)}
    (hmiss : ∃ n spec, Piece.hole n spec ∈ t ∧ data.lookup n = none) :
    formatTemplate t data = none := by
  induction t with
  | nil =>
    obtain ⟨n, spec, hmem, _⟩ := hmiss
    simp at hmem
  | cons p rest ih =>
    obtain ⟨n, spec, hmem, hlook⟩ := hmiss
    cases p with
    | lit l =>
      have : Piece.hole n spec ∈ rest := by
        rcases List.mem_cons.1 hmem with hc | hc
        · exact absurd hc (by simp)
        · exact hc
      unfold formatTemplate
      rw [ih ⟨n, spec, this, hlook⟩]
      rfl
    | hole n2 spec2 =>
      unfold formatTemplate
      cases hl2 : data.lookup n2 with
      | none => rfl
      | some v =>
        rcases List.mem_cons.1 hmem with hc | hc
        · injection hc with hn hs
          rw [← hn] at hl2
          rw [hl2] at hlook
          exact absurd hlook (by simp)
        · rw [ih ⟨n, spec, hc, hlook⟩]
          rfl

/-- `generate_template` on an event type that has a template table
entry. -/
theorem generate_template_some (pick : ℕ) (e : GameEvent) (ts : List (List Piece))
    (hts : TEMPLATES e.event_type = some ts) :
    generate_template pick e =
      if ts.isEmpty then none
      else
        match formatTemplate (templateChoice ts pick) (EventData.fields e.data) with
        | some s => some s
        | none => some (rawTemplate (templateChoice ts pick)) := by
  unfold generate_template
  rw [hts]

/-- C9: the template fast path degrades instead of failing — when the
chosen template references a payload field absent from the event's data,
rendering returns the raw template text with its placeholders intact;
and when the event type has no entry in the template table, rendering
returns no text rather than an error. -/
theorem c9_render_degrades (pick : ℕ) (e : GameEvent) :
    (∀ ts, TEMPLATES e.event_type = some ts → ts.isEmpty = false →
      (∃ n spec, Piece.hole n spec ∈ templateChoice ts pick ∧
        (EventData.fields e.data).lookup n = none) →
      generate_template pick e = some (rawTemplate (templateChoice ts pick))) ∧
    (TEMPLATES e.event_type = none → generate_template pick e = none) := by
  constructor
  · intro ts hts hne hmiss
    rw [generate_template_some pick e ts hts]
    rw [hne]
    simp only [Bool.false_eq_true, if_false]
    rw [formatTemplate_missing hmiss]
  · intro hts
    unfold generate_template
    rw [hts]

/-- Witness for C9: a TOWER_DESTROYED event with an empty payload
renders to the raw template, and a BIG_PLAY event (no template set)
renders to nothing. -/
theorem c9_render_degrades_witness :
    generate_template 0 c9Event =
      some (rawTemplate (templateChoice ((TEMPLATES c9Event.event_type).getD []) 0)) ∧
    generate_template 0 c9NoTemplate = none :=
  ⟨(c9_render_degrades 0 c9Event).1 ((TEMPLATES c9Event.event_type).getD [])
      (by rfl) (by rfl) ⟨"team", "", by decide, rfl⟩,
   (c9_render_degrades 0 c9NoTemplate).2 rfl⟩

/-- C2: in the multi-kill scenario (one red killer that resolves on
every death edge, victims with empty streaks), kills at t₁ < t₂ < t₃ <
t₄ all within 10 seconds of t₁ produce: a kill event only at t₁,
additionally DOUBLE_KILL at t₂, additionally TRIPLE_KILL at t₃, and
MULTI_KILL with count 4 at t₄; whereas a kill at t followed by one at
t + 11 does not combine — the second death yields a kill event only,
with no DOUBLE_KILL, TRIPLE_KILL or MULTI_KILL. -/
theorem c2_multikill_window (t₁ t₂ t₃ t₄ : ℚ)
    (h12 : t₁ < t₂) (h23 : t₂ < t₃) (h34 : t₃ < t₄) (hwin : t₄ < t₁ + 10) :
    on_champion_death (c2State 0 [] false) (c2Victim "v1") 1 t₁ =
      .ok (c2State 1 [t₁] true, [c2Kill EventType.firstBlood t₁ 1 "v1"]) ∧
    on_champion_death (c2State 1 [t₁] true) (c2Victim "v2") 2 t₂ =
      .ok (c2State 2 [t₁, t₂] true,
        [c2Kill EventType.championKill t₂ 2 "v2",
         GameEvent.mk EventType.doubleKill t₂ 2 (EventData.streakData "k" "red")]) ∧
    on_champion_death (c2State 2 [t₁, t₂] true) (c2Victim "v3") 3 t₃ =
      .ok (c2State 3 [t₁, t₂, t₃] true,
        [c2Kill EventType.championKill t₃ 3 "v3",
         GameEvent.mk EventType.tripleKill t₃ 3 (EventData.streakData "k" "red")]) ∧
    on_champion_death (c2State 3 [t₁, t₂, t₃] true) (c2Victim "v4") 4 t₄ =
      .ok (c2State 4 [t₁, t₂, t₃, t₄] true,
        [c2Kill EventType.championKill t₄ 4 "v4",
         GameEvent.mk EventType.multiKill t₄ 4 (EventData.streakCount "k" "red" 4)]) ∧
    (∀ t : ℚ, on_champion_death (c2State 1 [t] true) (c2Victim "v2") 2 (t + 11) =
      .ok (c2State 2 [t + 11] true, [c2Kill EventType.championKill (t + 11) 2 "v2"])) := by
  refine ⟨?_, ?_, ?_, ?_, ?_⟩
  · unfold on_champion_death
    rw [c2_resolve "v1" 0 [] false, except_map_ok]
    have hb : t₁ - t₁ < 10 := by norm_num
    simp [death_result, c2State, c2Killer, c2Victim, c2Kill, mkChamp, initState,
      updateChamp, List.filter_cons, hb]
  · unfold on_champion_death
    rw [c2_resolve "v2" 1 [t₁] true, except_map_ok]
    have ha : t₂ - t₁ < 10 := by linarith
    have hb : t₂ - t₂ < 10 := by norm_num
    simp [death_result, c2State, c2Killer, c2Victim, c2Kill, mkChamp, initState,
      updateChamp, List.filter_cons, ha, hb]
  · unfold on_champion_death
    rw [c2_resolve "v3" 2 [t₁, t₂] true, except_map_ok]
    have ha : t₃ - t₁ < 10 := by linarith
    have hb : t₃ - t₂ < 10 := by linarith
    have hc : t₃ - t₃ < 10 := by norm_num
    simp [death_result, c2State, c2Killer, c2Victim, c2Kill, mkChamp, initState,
      updateChamp, List.filter_cons, ha, hb, hc]
  · unfold on_champion_death
    rw [c2_resolve "v4" 3 [t₁, t₂, t₃] true, except_map_ok]
    have ha : t₄ - t₁ < 10 := by linarith
    have hb : t₄ - t₂ < 10 := by linarith
    have hc : t₄ - t₃ < 10 := by linarith
    have hd : t₄ - t₄ < 10 := by norm_num
    simp [death_result, c2State, c2Killer, c2Victim, c2Kill, mkChamp, initState,
      updateChamp, List.filter_cons, ha, hb, hc, hd]
  · intro t
    unfold on_champion_death
    rw [c2_resolve "v2" 1 [t] true, except_map_ok]
    have hb : t + 11 - (t + 11) < 10 := by norm_num
    simp [death_result, c2State, c2Killer, c2Victim, c2Kill, mkChamp, initState,
      updateChamp, List.filter_cons, hb]
    norm_num

/-- Witness for C2 at kill times 0, 1, 2, 3 (and the window exclusion at
0 and 11). -/
theorem c2_multikill_window_witness :
    on_champion_death (c2State 0 [] false) (c2Victim "v1") 1 0 =
      .ok (c2State 1 [0] true, [c2Kill EventType.firstBlood 0 1 "v1"]) ∧
    on_champion_death (c2State 3 [0, 1, 2] true) (c2Victim "v4") 4 3 =
      .ok (c2State 4 [0, 1, 2, 3] true,
        [c2Kill EventType.championKill 3 4 "v4",
         GameEvent.mk EventType.multiKill 3 4 (EventData.streakCount "k" "red" 4)]) ∧
    on_champion_death (c2State 1 [0] true) (c2Victim "v2") 2 (0 + 11) =
      .ok (c2State 2 [0 + 11] true, [c2Kill EventType.championKill (0 + 11) 2 "v2"]) :=
  (fun H => ⟨H.1, H.2.2.2.1, H.2.2.2.2 0⟩)
    (c2_multikill_window 0 1 2 3 (by norm_num) (by norm_num) (by norm_num)
      (by norm_num))

/-- A dict read on a present key succeeds. -/
theorem getKey_ok {v : Option ℚ} (h : v.isSome = true) : ∃ x, getKey v = .ok x := by
  cases v with
  | none => simp at h
  | some x => exact ⟨x, rfl⟩

/-- The distance computation succeeds on complete positions. -/
theorem sq_dist_ok {a b : ChampionState} (ha : posWF a.position = true)
    (hb : posWF b.position = true) : ∃ d, sq_dist a b = .ok d := by
  rw [posWF, Bool.and_eq_true] at ha hb
  obtain ⟨ax, hax⟩ := Option.isSome_iff_exists.1 ha.1
  obtain ⟨ay, hay⟩ := Option.isSome_iff_exists.1 ha.2
  obtain ⟨bx, hbx⟩ := Option.isSome_iff_exists.1 hb.1
  obtain ⟨by2, hby⟩ := Option.isSome_iff_exists.1 hb.2
  refine ⟨(ax - bx) * (ax - bx) + (ay - by2) * (ay - by2), ?_⟩
  simp [sq_dist, getKey, hax, hay, hbx, hby, except_bind_ok]

/-- The killer scan succeeds when the victim and every tracked champion
carry complete positions. -/
theorem killer_fold_ok (victim : ChampionState) (hv : posWF victim.position = true)
    (et : String) :
    ∀ l : List ChampionState, (∀ c ∈ l, posWF c.position = true) →
      ∀ acc, ∃ r, killer_fold victim et l acc = .ok r := by
  intro l
  induction l with
  | nil => exact fun _ acc => ⟨acc, rfl⟩
  | cons c rest ih =>
    intro hl acc
    unfold killer_fold
    split
    · exact ih (fun x hx => hl x (List.mem_cons_of_mem c hx)) acc
    · obtain ⟨d, hd⟩ := sq_dist_ok (hl c (List.mem_cons_self c rest)) hv
      rw [hd, except_bind_ok]
      cases acc with
      | none => exact ih (fun x hx => hl x (List.mem_cons_of_mem c hx)) _
      | some best =>
        obtain ⟨b1, b2⟩ := best
        show ∃ r, (if d < b2 then killer_fold victim et rest (some (c, d))
          else killer_fold victim et rest (some (b1, b2))) = Except.ok r
        split <;> exact ih (fun x hx => hl x (List.mem_cons_of_mem c hx)) _

/-- The killer heuristic succeeds under complete positions. -/
theorem find_likely_killer_ok (victim : ChampionState)
    (states : List ChampionState) (hv : posWF victim.position = true)
    (hst : statesWF states) :
    ∃ k?, find_likely_killer victim states = .ok k? := by
  obtain ⟨r, hr⟩ := killer_fold_ok victim hv
    (if victim.team = "blue" then "red" else "blue") states hst none
  exact ⟨r.map Prod.fst, by rw [find_likely_killer, hr, except_map_ok]⟩

/-- Mutating one tracked champion preserves complete positions provided
the mutation does. -/
theorem updateChamp_WF {states : List ChampionState} {cid : String}
    {f : ChampionState → ChampionState} (h : statesWF states)
    (hf : ∀ c, posWF c.position = true → posWF (f c).position = true) :
    statesWF (updateChamp states cid f) := by
  intro c hc
  unfold updateChamp at hc
  obtain ⟨c0, hc0, hceq⟩ := List.mem_map.1 hc
  subst hceq
  split
  · exact hf c0 (h c0 hc0)
  · exact h c0 hc0

/-- One death preserves complete positions. -/
theorem death_result_WF (σ : DetectorState) (v : ChampionState) (tk : ℤ) (ts : ℚ)
    (k? : Option ChampionState) (h : statesWF σ.champion_states) :
    statesWF (death_result σ v tk ts k?).1.champion_states := by
  unfold death_result
  cases k? <;> by_cases hfb : σ.first_blood_occurred = false <;>
    simp only [hfb, Bool.false_eq_true, if_true, if_false, reduceIte] <;>
    first
    | exact h
    | exact updateChamp_WF h (fun c hc => hc)

/-- The state refresh preserves complete positions, given the snapshot
record's position is complete when present. -/
theorem settle_champion_WF (prev : ChampionState) (cd : ChampData) (cid : String)
    (tk : ℤ) (ts : ℚ) (σ₁ : DetectorState) (dEvs : List GameEvent)
    (h : statesWF σ₁.champion_states) (hcd : optPosWF cd.position? = true) :
    statesWF (settle_champion prev cd cid tk ts σ₁ dEvs).1.champion_states := by
  have hpos : posWF (cd.position?.getD ⟨some 0, some 0⟩) = true := by
    cases hp : cd.position? with
    | none => rfl
    | some p => rw [hp] at hcd; exact hcd
  simp only [settle_champion]
  split_ifs <;>
    exact updateChamp_WF (by first | exact updateChamp_WF h (fun c hc => hc) | exact h)
      (fun c _ => hpos)

/-- One champion record processes successfully under complete positions,
and the result keeps positions complete. -/
theorem process_champion_ok (σ : DetectorState) (cd : ChampData) (tk : ℤ) (ts : ℚ)
    (hσ : statesWF σ.champion_states) (hcd : optPosWF cd.position? = true) :
    ∃ r, process_champion σ cd tk ts = .ok r ∧ statesWF r.1.champion_states := by
  simp only [process_champion]
  cases hl : lookupChamp σ.champion_states (cd.id?.getD "") with
  | none =>
    refine ⟨_, rfl, ?_⟩
    intro c hc
    rcases List.mem_append.1 hc with hm | hm
    · exact hσ c hm
    · simp only [List.mem_singleton] at hm
      subst hm
      show posWF (cd.position?.getD ⟨some 0, some 0⟩) = true
      cases hp : cd.position? with
      | none => rfl
      | some p => rw [hp] at hcd; exact hcd
  | some prev =>
    have hprev : posWF prev.position = true :=
      hσ prev (List.mem_of_find?_eq_some hl)
    show ∃ r, Except.map (fun p => settle_champion prev cd (cd.id?.getD "") tk ts p.1 p.2)
        (if prev.is_alive = true ∧ cd.is_alive?.getD true = false then
          on_champion_death σ prev tk ts
        else Except.ok (σ, [])) = Except.ok r ∧ statesWF r.1.champion_states
    by_cases hd : prev.is_alive = true ∧ (cd.is_alive?.getD true) = false
    · rw [if_pos hd]
      obtain ⟨k?, hk⟩ := find_likely_killer_ok prev σ.champion_states hprev hσ
      have hocd : on_champion_death σ prev tk ts = .ok (death_result σ prev tk ts k?) := by
        rw [on_champion_death, hk, except_map_ok]
      rw [hocd, except_map_ok]
      exact ⟨_, rfl, settle_champion_WF prev cd _ tk ts _ _
        (death_result_WF σ prev tk ts k? hσ) hcd⟩
    · rw [if_neg hd, except_map_ok]
      exact ⟨_, rfl, settle_champion_WF prev cd _ tk ts _ _ hσ hcd⟩

/-- The whole champion stage is total under complete positions. -/
theorem process_champions_ok (l : List ChampData) (σ : DetectorState) (tk : ℤ)
    (ts : ℚ) (hσ : statesWF σ.champion_states)
    (hl : ∀ cd ∈ l, optPosWF cd.position? = true) :
    ∃ r, process_champions σ l tk ts = .ok r ∧ statesWF r.1.champion_states := by
  induction l generalizing σ with
  | nil => exact ⟨(σ, []), rfl, hσ⟩
  | cons cd rest ih =>
    obtain ⟨r, hr, hrWF⟩ := process_champion_ok σ cd tk ts hσ
      (hl cd (List.mem_cons_self cd rest))
    obtain ⟨q, hq, hqWF⟩ := ih r.1 hrWF
      (fun x hx => hl x (List.mem_cons_of_mem cd hx))
    refine ⟨(q.1, r.2 ++ q.2), ?_, hqWF⟩
    rw [process_champions_cons, hr.trans (by rfl), except_bind_ok, hq.trans (by rfl),
      except_bind_ok]

/-- C6 (amended): `detect` is total — returning a list of events and a
new state rather than raising — on every snapshot and tracked state
whose position objects, when present at all, carry both coordinates;
that completeness is preserved by every call; champion records with a
missing id key collapse to id "", previously unseen champion ids are
adopted silently with no event; and the adopted record uses the safe
defaults: champion "Unknown", team "blue", health 0, max_health 600,
level 1, alive true, position origin.  (As stated over arbitrary
snapshots the claim is false: a present-but-coordinate-less position
object makes a later death edge raise KeyError — see the
counterexample.) -/
theorem c6_detect_total (σ : DetectorState) (s : Snapshot)
    (hσ : statesWF σ.champion_states) (hs : snapWF s) :
    (detect σ s).isOk = true ∧
    (∀ σ' evs, detect σ s = .ok (σ', evs) → statesWF σ'.champion_states) ∧
    (∀ (σ0 : DetectorState) (cd : ChampData) (tk : ℤ) (ts : ℚ),
      lookupChamp σ0.champion_states (cd.id?.getD "") = none →
      process_champion σ0 cd tk ts =
        .ok ({σ0 with champion_states :=
          σ0.champion_states ++ [freshChampion cd (cd.id?.getD "")]}, [])) ∧
    (∀ cid : String,
      freshChampion ⟨some cid, none, none, none, none, none, none, none⟩ cid =
        ⟨cid, "Unknown", "blue", 0, 600, 1, true, ⟨some 0, some 0⟩, 0, []⟩) := by
  have hstart : statesWF (match_start_step σ s (s.tick?.getD 0)
      (s.match_time?.getD 0)).1.champion_states := by
    rw [(match_start_step_frame σ s (s.tick?.getD 0) (s.match_time?.getD 0)).1]
    exact hσ
  obtain ⟨r, hr, hrWF⟩ := process_champions_ok s.champions
    (match_start_step σ s (s.tick?.getD 0) (s.match_time?.getD 0)).1
    (s.tick?.getD 0) (s.match_time?.getD 0) hstart hs
  refine ⟨?_, ?_, ?_, ?_⟩
  · rw [detect_eq_bind, hr.trans (by rfl), except_bind_ok]
    rfl
  · intro σ' evs h
    obtain ⟨σ₂, champEvs, hp, hσ', _⟩ := detect_ok_elim h
    have : σ₂ = r.1 := by
      rw [hr.trans (by rfl)] at hp
      injection hp with hp1
      exact (congrArg Prod.fst hp1).symm
    subst this
    rw [hσ']
    exact hrWF
  · intro σ0 cd tk ts hl
    simp only [process_champion]
    rw [hl]
  · intro cid
    rfl

/-- Counterexample to C6 as stated: champion `a` arrives with a present
but coordinate-less position object (adopted as-is by the first call),
and the next snapshot's death edge makes `detect` raise KeyError inside
`_find_likely_killer` instead of returning events. -/
theorem c6_counterexample :
    ((detect initState c6Snap1).bind fun r => detect r.1 c6Snap2).isOk = false := by
  decide

/-- Witness for the amended C6 on a concrete state and snapshot. -/
theorem c6_detect_total_witness :
    statesWF initState.champion_states ∧ snapWF demoSnap0 ∧
    (detect initState demoSnap0).isOk = true := by
  have h1 : statesWF initState.champion_states := by
    intro c hc
    simp [initState] at hc
  have h2 : snapWF demoSnap0 := by
    intro cd hcd
    simp [demoSnap0, champCD] at hcd
    rcases hcd with rfl | rfl <;> rfl
  exact ⟨h1, h2, (c6_detect_total initState demoSnap0 h1 h2).1⟩

end LoM
